import Mathlib

/-!
# Verification of the codex-proxy request/stream pipeline

Shallow embedding of the core of `dvcrn/codex-proxy` (Go) in Lean 4:

* the model registry and effort clamping (`internal/server/models.go`,
  `internal/server/transform.go`),
* the chat-completions request transform (`buildCodexRequestBody` and its
  helpers in `internal/server/transform.go`),
* the responses request transform (`transformResponsesRequestBody`,
  `sanitizeResponsesInput`),
* the SSE stream rewriter (`SSETransformer.Transform`,
  `RewriteSSEStreamWithCallback`),
* the 401 retry layer (`makeChatGPTRequestWithRetry` plus the handler's
  error mapping in `internal/server/server.go`),
* the OAuth expiry and refresh-failure behaviour
  (`TokenExpired`, `OAuthFetcher.GetCredentials` in `internal/auth`).

Go dynamic JSON (`map[string]interface{}` / `[]interface{}`) is embedded as
an explicit `Json` tree; Go maps become association lists (only
get/set/delete semantics are used by the program, so ordering of object
fields is irrelevant to every property proved here).  Go strings are Lean
`String`s; the handful of `strings.*` helpers the program uses are
re-implemented below over `List Char` so that everything reduces inside the
kernel.  Numbers that the program reads from JSON (`float64` in Go) only
ever carry integral token counts and indices and are embedded as `Int`.
-/

namespace CodexProxy

/-! ## Go string helpers (strings.ToLower, TrimSpace, Contains, ...) -/

/-- `strings.ToLower` restricted to ASCII (all model ids, efforts and field
names handled by the program are ASCII). -/
def strToLower (s : String) : String :=
  ⟨s.data.map Char.toLower⟩

/-- `strings.TrimSpace`: drop whitespace from both ends. -/
def strTrim (s : String) : String :=
  ⟨(s.data.dropWhile Char.isWhitespace).reverse.dropWhile Char.isWhitespace |>.reverse⟩

/-- `strings.HasSuffix`. -/
def strEndsWith (s suffixStr : String) : Bool :=
  List.isSuffixOf suffixStr.data s.data

/-- `strings.HasPrefix`. -/
def strStartsWith (s pre : String) : Bool :=
  List.isPrefixOf pre.data s.data

/-- `strings.TrimSuffix` (the program always guards it with `HasSuffix`). -/
def strTrimSuffix (s suffixStr : String) : String :=
  if strEndsWith s suffixStr then ⟨s.data.take (s.data.length - suffixStr.data.length)⟩ else s

/-- Substring search over char lists, used for `strings.Contains`. -/
def containsSubList (hay sub : List Char) : Bool :=
  match hay with
  | [] => sub.isEmpty
  | c :: t => List.isPrefixOf sub (c :: t) || containsSubList t sub

/-- `strings.Contains` (substring containment). -/
def strContainsSub (s sub : String) : Bool :=
  containsSubList s.data sub.data

/-- Kernel of `strings.Replace(s, old, new, -1)`: leftmost-match,
non-overlapping replacement (all patterns used by the program are
non-empty).  The fuel argument is only there to make the recursion
structural; every call supplies `fuel = hay.length`, and since each step
consumes at least one character of `hay` while consuming exactly one unit
of fuel, the fuel never runs out. -/
def replaceListFuel : Nat → List Char → List Char → List Char → List Char
  | _, [], _, _ => []
  | 0, hay, _, _ => hay
  | fuel + 1, c :: t, old, new =>
    if old ≠ [] ∧ List.isPrefixOf old (c :: t) then
      new ++ replaceListFuel fuel ((c :: t).drop old.length) old new
    else
      c :: replaceListFuel fuel t old new

/-- `strings.Replace(s, old, new, -1)`. -/
def strReplaceAll (s old new : String) : String :=
  ⟨replaceListFuel s.data.length s.data old.data new.data⟩

/-- `strings.Join(parts, sep)`. -/
def strJoin (parts : List String) (sep : String) : String :=
  match parts with
  | [] => ""
  | [p] => p
  | p :: rest => p ++ sep ++ strJoin rest sep

/-! ## Dynamic JSON values

`Json` embeds Go's parsed-JSON universe: `map[string]interface{}` becomes
`Json.obj` over an association list, `[]interface{}` becomes `Json.arr`.
Go JSON numbers are `float64`; the program only reads integral token counts
and output indices, embedded as `Int`. -/

inductive Json where
  | null : Json
  | bool (b : Bool) : Json
  | num (n : Int) : Json
  | str (s : String) : Json
  | arr (xs : List Json) : Json
  | obj (fields : List (String × Json)) : Json

abbrev JObj := List (String × Json)

/-- Go map read `m[k]` (with the implicit presence flag as `Option`). -/
def objGet (fields : JObj) (k : String) : Option Json :=
  match fields.find? (fun p => p.1 == k) with
  | some p => some p.2
  | none => none

/-- Go map write `m[k] = v` (association-list update; Go maps are
unordered, so placing the updated binding last is observationally
equivalent). -/
def objSet (fields : JObj) (k : String) (v : Json) : JObj :=
  fields.filter (fun p => p.1 != k) ++ [(k, v)]

/-- Go `delete(m, k)`. -/
def objDel (fields : JObj) (k : String) : JObj :=
  fields.filter (fun p => p.1 != k)

/-- Go type assertion `v, ok := m[k].(string)` (the value, when present and
a string). -/
def objGetStrOpt (fields : JObj) (k : String) : Option String :=
  match objGet fields k with
  | some (Json.str s) => some s
  | _ => none

/-- Go type assertion with discarded flag `v, _ := m[k].(string)`: the zero
value `""` when absent or not a string. -/
def getStr (fields : JObj) (k : String) : String :=
  (objGetStrOpt fields k).getD ""

/-- Go `v, ok := m[k].(float64)`. -/
def objGetNumOpt (fields : JObj) (k : String) : Option Int :=
  match objGet fields k with
  | some (Json.num n) => some n
  | _ => none

/-- Go `v, ok := m[k].([]interface{})`. -/
def objGetArrOpt (fields : JObj) (k : String) : Option (List Json) :=
  match objGet fields k with
  | some (Json.arr xs) => some xs
  | _ => none

/-- Go `v, ok := m[k].(map[string]interface{})`. -/
def objGetObjOpt (fields : JObj) (k : String) : Option JObj :=
  match objGet fields k with
  | some (Json.obj f) => some f
  | _ => none

/-- Go type assertion `m, ok := v.(map[string]interface{})` on a value. -/
def asObjOpt : Json → Option JObj
  | Json.obj f => some f
  | _ => none

/-- The `role` string of an input item, as the program reads it
(`role, _ := m["role"].(string)`; non-objects have no role). -/
def jsonRole : Json → String
  | Json.obj f => getStr f "role"
  | _ => ""

/-! ## Model registry (`internal/server/models.go`) -/

def modelGPT5 : String := "gpt-5"
def modelGPT5Codex : String := "gpt-5-codex"
def modelGPT51 : String := "gpt-5.1"
def modelGPT51Codex : String := "gpt-5.1-codex"
def modelGPT51CodexMax : String := "gpt-5.1-codex-max"
def modelGPT52 : String := "gpt-5.2"
def modelGPT52Codex : String := "gpt-5.2-codex"
def modelGPT53Codex : String := "gpt-5.3-codex"
def modelGPT53CodexSpark : String := "gpt-5.3-codex-spark"
def modelGPT5CodexMini : String := "gpt-5-codex-mini"
def modelGPT51CodexMini : String := "gpt-5.1-codex-mini"

/-- `modelAllowedEfforts` map from models.go (association list; Go map keys
are unique, lookup order is irrelevant). -/
def modelAllowedEfforts : List (String × List String) :=
  [ (modelGPT5, ["minimal", "low", "medium", "high"]),
    (modelGPT52, ["low", "medium", "high", "xhigh"]),
    (modelGPT52Codex, ["low", "medium", "high", "xhigh"]),
    (modelGPT53Codex, ["low", "medium", "high", "xhigh"]),
    (modelGPT53CodexSpark, ["low", "medium", "high", "xhigh"]),
    (modelGPT5Codex, ["minimal", "low", "medium", "high"]),
    (modelGPT51, ["low", "medium", "high"]),
    (modelGPT51Codex, ["low", "medium", "high"]),
    (modelGPT51CodexMax, ["low", "medium", "high", "xhigh"]),
    (modelGPT5CodexMini, ["medium", "high"]),
    (modelGPT51CodexMini, ["medium", "high"]) ]

/-- Go map read `allowed, ok := modelAllowedEfforts[m]`. -/
def lookupAllowedEfforts (m : String) : Option (List String) :=
  (modelAllowedEfforts.find? (fun p => p.1 == m)).map (·.2)

/-- The allowed-effort set of a model (empty when the model has no entry),
i.e. the spec's `allowedEfforts(m)`. -/
def allowedEffortsOf (m : String) : List String :=
  (lookupAllowedEfforts m).getD []

/-- `modelDefaultEffort` map from models.go. -/
def modelDefaultEffort : List (String × String) :=
  [ (modelGPT51, "low"),
    (modelGPT52, "medium"),
    (modelGPT52Codex, "medium"),
    (modelGPT53Codex, "medium"),
    (modelGPT53CodexSpark, "high"),
    (modelGPT51Codex, "low"),
    (modelGPT51CodexMax, "low"),
    (modelGPT5CodexMini, "medium"),
    (modelGPT51CodexMini, "medium") ]

/-- Go map read `def, ok := modelDefaultEffort[m]`. -/
def lookupDefaultEffort (m : String) : Option String :=
  (modelDefaultEffort.find? (fun p => p.1 == m)).map (·.2)

/-- The nine model ids that `normalizeModel` can produce (its range,
established below); `gpt-5.3-codex` and `gpt-5.3-codex-spark` are absent. -/
def normalizeModelRange : List String :=
  [ modelGPT5, modelGPT5Codex, modelGPT5CodexMini, modelGPT51, modelGPT51Codex,
    modelGPT51CodexMax, modelGPT51CodexMini, modelGPT52, modelGPT52Codex ]

/-- The closed set of canonical model ids declared in models.go. -/
def canonicalModelIDs : List String :=
  [ modelGPT5, modelGPT5Codex, modelGPT51, modelGPT51Codex, modelGPT51CodexMax,
    modelGPT52, modelGPT52Codex, modelGPT53Codex, modelGPT53CodexSpark,
    modelGPT5CodexMini, modelGPT51CodexMini ]

/-- `supportedModelIDs` from models.go (the base ids advertised by
`/v1/models`). -/
def supportedModelIDs : List String :=
  [ modelGPT5, modelGPT52, modelGPT52Codex, modelGPT53Codex, modelGPT53CodexSpark,
    modelGPT5Codex, modelGPT51, modelGPT51Codex, modelGPT51CodexMax,
    modelGPT5CodexMini, modelGPT51CodexMini ]

/-- The ids of `modelMetadataByID` from models.go (all eleven base models
carry metadata; the metadata bodies themselves — capability records,
display names — are not needed by any claim and are not embedded). -/
def modelMetadataIDs : List String := canonicalModelIDs

/-- The id list produced by `supportedModels()` in models.go: each base id
with metadata, followed by one `-<effort>` suffix variant per allowed
effort.  This is the id column of what `GET /v1/models` advertises. -/
def supportedModelsIds : List String :=
  supportedModelIDs.foldr
    (fun id acc =>
      if modelMetadataIDs.contains id then
        (id :: ((allowedEffortsOf id).map (fun effort => id ++ "-" ++ effort))) ++ acc
      else acc)
    []

/-! ## Model normalization and effort clamping
(`internal/server/transform.go`) -/

/-- The suffix loop of `normalizeModel`: strip at most one trailing effort
suffix (first match in order, then `break`). -/
def stripEffortSuffix (s : String) : String :=
  match ["-xhigh", "-high", "-medium", "-low", "-minimal"].find? (fun e => strEndsWith s e) with
  | some e => strTrimSuffix s e
  | none => s

/-- `normalizeModel` from transform.go. -/
def normalizeModel (model : String) : String :=
  let lower := stripEffortSuffix (strToLower (strTrim model))
  if lower == "" then modelGPT5
  else if strContainsSub lower "gpt-5.2-codex" then modelGPT52Codex
  else if strContainsSub lower "gpt-5.2" then modelGPT52
  else if strContainsSub lower "gpt-5.1-codex-max" then modelGPT51CodexMax
  else if strContainsSub lower "gpt-5.1-codex-mini" then modelGPT51CodexMini
  else if strContainsSub lower "gpt-5.1-codex" then modelGPT51Codex
  else if strContainsSub lower "gpt-5.1" then modelGPT51
  else if strContainsSub lower "gpt-5-codex-mini" then modelGPT5CodexMini
  else if strContainsSub lower "gpt-5-codex" || strContainsSub lower "codex" then modelGPT5Codex
  else modelGPT5

/-- `normalizeReasoningEffort` from transform.go (`none` aliases to `low`,
unknown values normalize to the empty string, i.e. unset). -/
def normalizeReasoningEffort (effort : String) : String :=
  let e := strToLower (strTrim effort)
  if e == "minimal" then "minimal"
  else if e == "low" then "low"
  else if e == "medium" then "medium"
  else if e == "high" then "high"
  else if e == "xhigh" then "xhigh"
  else if e == "none" then "low"
  else ""

/-- `clampReasoningEffortForModel` from transform.go. -/
def clampReasoningEffortForModel (effort backendModel : String) : String :=
  let effort := strTrim effort
  let backendModel := strTrim backendModel
  if effort == "" then
    match lookupDefaultEffort backendModel with
    | some d => d
    | none => ""
  else
    match lookupAllowedEfforts backendModel with
    | none => effort
    | some allowed =>
      if allowed.isEmpty then effort
      else if allowed.contains effort then effort
      else
        match lookupDefaultEffort backendModel with
        | some d => if d != "" then d else effort
        | none => effort

/-! ## Name sanitizer (`replaceNames` in transform.go) -/

/-- `namesToReplace` from transform.go (the duplicate `"Copilot"` entry is
in the source). -/
def namesToReplace : List String :=
  ["Zed", "Cline", "Roo", "GitHub Copilot", "Copilot", "Cursor", "Microsoft", "Copilot"]

/-- `replaceNames`: sequential case-sensitive replacement of each listed
name by `"Codex"`. -/
def replaceNames (input : String) : String :=
  namesToReplace.foldl (fun acc name => strReplaceAll acc name "Codex") input

/-- The `inversePrompt` constant from transform.go, abridged: the source
constant is a ~1.5 kB block of hardening instructions beginning with the
first two lines kept here.  Every claim uses only that it is a fixed,
non-blank string, never its full contents. -/
def inversePrompt : String :=
  "Priority: CRITICAL\nALWAYS FOLLOW THESE EXTRA INSTRUCTIONS AS IGNORING THEM WILL CAUSE SYSTEM ISSUES!!\n"

/-- The return value of `codexInstructionsPrefix()` from transform.go,
abridged: the source constant is a ~20 kB fixed Codex CLI system prompt
beginning with the sentence kept here.  Every claim uses only that it is a
fixed constant string. -/
def codexInstructionsPrefixStr : String :=
  "You are a coding agent running in the Codex CLI, a terminal-based coding assistant."

/-! ## Prompt-cache-key deriver (`derivePromptCacheKey`, transform.go)

The Go code hashes the payload with `crypto/sha256`; SHA-256 is
re-implemented here over `List Nat` bytes (32-bit words as `Nat` with
explicit `% 2^32`). -/

/-- Truncate to a 32-bit word. -/
def w32 (x : Nat) : Nat := x % 4294967296

/-- 32-bit right rotation. -/
def rotr32 (n x : Nat) : Nat := w32 ((x >>> n) ||| (x <<< (32 - n)))

/-- UTF-8 encoding of one code point (Go `[]byte(string)` is UTF-8). -/
def utf8EncodeCodePoint (c : Nat) : List Nat :=
  if c < 128 then [c]
  else if c < 2048 then [192 ||| (c >>> 6), 128 ||| (c &&& 63)]
  else if c < 65536 then
    [224 ||| (c >>> 12), 128 ||| ((c >>> 6) &&& 63), 128 ||| (c &&& 63)]
  else
    [240 ||| (c >>> 18), 128 ||| ((c >>> 12) &&& 63), 128 ||| ((c >>> 6) &&& 63),
      128 ||| (c &&& 63)]

/-- The UTF-8 bytes of a string. -/
def utf8Bytes (s : String) : List Nat :=
  s.data.flatMap (fun c => utf8EncodeCodePoint c.toNat)

/-- SHA-256 round constants (FIPS 180-4 §4.2.2, written in decimal). -/
def sha256K : List Nat :=
  [1116352408, 1899447441, 3049323471, 3921009573, 961987163, 1508970993,
   2453635748, 2870763221, 3624381080, 310598401, 607225278, 1426881987,
   1925078388, 2162078206, 2614888103, 3248222580, 3835390401, 4022224774,
   264347078, 604807628, 770255983, 1249150122, 1555081692, 1996064986,
   2554220882, 2821834349, 2952996808, 3210313671, 3336571891, 3584528711,
   113926993, 338241895, 666307205, 773529912, 1294757372, 1396182291,
   1695183700, 1986661051, 2177026350, 2456956037, 2730485921, 2820302411,
   3259730800, 3345764771, 3516065817, 3600352804, 4094571909, 275423344,
   430227734, 506948616, 659060556, 883997877, 958139571, 1322822218,
   1537002063, 1747873779, 1955562222, 2024104815, 2227730452, 2361852424,
   2428436474, 2756734187, 3204031479, 3329325298]

/-- SHA-256 initial hash state (FIPS 180-4 §5.3.3, written in decimal). -/
def sha256H0 : List Nat :=
  [1779033703, 3144134277, 1013904242, 2773480762,
   1359893119, 2600822924, 528734635, 1541459225]

/-- SHA-256 message padding. -/
def sha256Pad (msg : List Nat) : List Nat :=
  let bitLen := msg.length * 8
  let padZeros := (64 - ((msg.length + 9) % 64)) % 64
  msg ++ [128] ++ List.replicate padZeros 0 ++
    (List.range 8).map (fun i => (bitLen >>> ((7 - i) * 8)) % 256)

/-- Split a byte list into 64-byte blocks (fuel-structured; fuel is the
list length, which bounds the number of blocks). -/
def chunks64Fuel : Nat → List Nat → List (List Nat)
  | _, [] => []
  | 0, _ => []
  | fuel + 1, bs => bs.take 64 :: chunks64Fuel fuel (bs.drop 64)

/-- The 16 big-endian message-schedule words of one 64-byte block. -/
def blockWords (block : List Nat) : List Nat :=
  (List.range 16).map (fun i =>
    (block.getD (4 * i) 0) * 16777216 + (block.getD (4 * i + 1) 0) * 65536 +
    (block.getD (4 * i + 2) 0) * 256 + block.getD (4 * i + 3) 0)

/-- One message-schedule extension step (appends word `ws.length`). -/
def extendStep (ws : List Nat) : List Nat :=
  let i := ws.length
  let w15 := ws.getD (i - 15) 0
  let w2 := ws.getD (i - 2) 0
  let w16 := ws.getD (i - 16) 0
  let w7 := ws.getD (i - 7) 0
  let s0 := (rotr32 7 w15) ^^^ (rotr32 18 w15) ^^^ (w15 >>> 3)
  let s1 := (rotr32 17 w2) ^^^ (rotr32 19 w2) ^^^ (w2 >>> 10)
  ws ++ [w32 (w16 + s0 + w7 + s1)]

/-- The full 64-word message schedule of one block. -/
def scheduleWords (block : List Nat) : List Nat :=
  (List.range 48).foldl (fun ws _ => extendStep ws) (blockWords block)

/-- One SHA-256 compression round. -/
def compressRound (st : List Nat) (kw : Nat × Nat) : List Nat :=
  match st with
  | [a, b, c, d, e, f, g, h] =>
    let s1 := rotr32 6 e ^^^ rotr32 11 e ^^^ rotr32 25 e
    let ch := (e &&& f) ^^^ ((e ^^^ 4294967295) &&& g)
    let temp1 := w32 (h + s1 + ch + kw.1 + kw.2)
    let s0 := rotr32 2 a ^^^ rotr32 13 a ^^^ rotr32 22 a
    let maj := (a &&& b) ^^^ (a &&& c) ^^^ (b &&& c)
    let temp2 := w32 (s0 + maj)
    [w32 (temp1 + temp2), a, b, c, w32 (d + temp1), e, f, g]
  | _ => st

/-- Process one 64-byte block. -/
def sha256Block (h : List Nat) (block : List Nat) : List Nat :=
  let compressed := (sha256K.zip (scheduleWords block)).foldl compressRound h
  List.zipWith (fun x y => w32 (x + y)) h compressed

/-- SHA-256 digest (32 bytes) of a byte list. -/
def sha256Bytes (msg : List Nat) : List Nat :=
  let padded := sha256Pad msg
  let finalH := (chunks64Fuel padded.length padded).foldl sha256Block sha256H0
  finalH.flatMap (fun word => [(word >>> 24) % 256, (word >>> 16) % 256, (word >>> 8) % 256, word % 256])

/-- Lower-case hex digit. -/
def hexDigit (n : Nat) : Char :=
  if n < 10 then Char.ofNat (48 + n) else Char.ofNat (87 + n)

/-- Two lower-case hex digits of one byte (`encoding/hex`). -/
def byteToHex (b : Nat) : List Char :=
  [hexDigit (b / 16), hexDigit (b % 16)]

/-- `formatUUID` from transform.go: canonical 8-4-4-4-12 formatting of the
16 bytes. -/
def formatUUID (b : List Nat) : String :=
  let hex := fun (xs : List Nat) => String.mk (xs.flatMap byteToHex)
  hex (b.take 4) ++ "-" ++ hex ((b.drop 4).take 2) ++ "-" ++ hex ((b.drop 6).take 2) ++
    "-" ++ hex ((b.drop 8).take 2) ++ "-" ++ hex ((b.drop 10).take 6)

/-- `derivePromptCacheKey` from transform.go: SHA-256 of
`model ++ "\n" ++ instructions ++ "\n" ++ firstUserText`, first 16 bytes
with the UUID version nibble set to 5 and the variant bits to `10`,
formatted as a canonical UUID; empty when all three trimmed inputs are
empty. -/
def derivePromptCacheKey (model instructions firstUserText : String) : String :=
  let model := strTrim model
  let instructions := strTrim instructions
  let firstUserText := strTrim firstUserText
  if model == "" && instructions == "" && firstUserText == "" then ""
  else
    let payload := model ++ "\n" ++ instructions ++ "\n" ++ firstUserText
    let sum := sha256Bytes (utf8Bytes payload)
    let uuidBytes := sum.take 16
    let b6 := uuidBytes.getD 6 0
    let b8 := uuidBytes.getD 8 0
    let uuidBytes := (uuidBytes.set 6 ((b6 &&& 15) ||| 80)).set 8 ((b8 &&& 63) ||| 128)
    formatUUID uuidBytes

/-! ## `encoding/json` marshalling of dynamic values

Used by the transform only through `extractArgumentsString` and
`collectToolOutput` (stringifying non-string tool arguments/outputs). -/

/-- JSON string escaping as `encoding/json` performs it (including the
default HTML escaping of `<`, `>`, `&`). -/
def escapeJsonChar (c : Char) : List Char :=
  if c = '"' then ['\\', '"']
  else if c = '\\' then ['\\', '\\']
  else if c = '\n' then ['\\', 'n']
  else if c = '\r' then ['\\', 'r']
  else if c = '\t' then ['\\', 't']
  else if c = '<' then "\\u003c".data
  else if c = '>' then "\\u003e".data
  else if c = '&' then "\\u0026".data
  else if c.toNat < 32 then '\\' :: 'u' :: '0' :: '0' :: byteToHex c.toNat
  else [c]

/-- A JSON string literal. -/
def jsonQuote (s : String) : String :=
  "\"" ++ String.mk (s.data.flatMap escapeJsonChar) ++ "\""

mutual

/-- Go `json.Marshal` of a dynamic JSON value (numbers are the integral
`float64` values the program handles, printed without a decimal point, as
`encoding/json` prints integral floats). -/
def jsonSerialize : Json → String
  | Json.null => "null"
  | Json.bool b => if b then "true" else "false"
  | Json.num n => toString n
  | Json.str s => jsonQuote s
  | Json.arr xs => "[" ++ strJoin (jsonSerializeList xs) "," ++ "]"
  | Json.obj fs => "\x7b" ++ strJoin (jsonSerializeFields fs) "," ++ "\x7d"

/-- Serialize the elements of an array. -/
def jsonSerializeList : List Json → List String
  | [] => []
  | x :: xs => jsonSerialize x :: jsonSerializeList xs

/-- Serialize the fields of an object. -/
def jsonSerializeFields : List (String × Json) → List String
  | [] => []
  | (k, v) :: fs => (jsonQuote k ++ ":" ++ jsonSerialize v) :: jsonSerializeFields fs

end

/-! ## Chat-completions request transform (`transform.go`) -/

/-- `resolveRequestModel`: the trimmed inbound model string, defaulting to
`gpt-5`. -/
def resolveRequestModel (requestData : JObj) : String :=
  match objGetStrOpt requestData "model" with
  | some model =>
    let model := strTrim model
    if model != "" then model else modelGPT5
  | none => modelGPT5

/-- The model-suffix fallback of `resolveReasoningEffort`. -/
def effortFromModelSuffix (requestData : JObj) : String :=
  match objGetStrOpt requestData "model" with
  | some model =>
    let lowerModel := strToLower (strTrim model)
    match ["xhigh", "high", "medium", "low", "minimal"].find?
        (fun e => strEndsWith lowerModel ("-" ++ e)) with
    | some e => e
    | none => ""
  | none => ""

/-- `resolveReasoningEffort`: `reasoning_effort` field, then
`reasoning.effort`, then a `-<effort>` suffix on the raw model. -/
def resolveReasoningEffort (requestData : JObj) : String :=
  let fromField :=
    match objGetStrOpt requestData "reasoning_effort" with
    | some e => strTrim e
    | none => ""
  if fromField != "" then fromField
  else
    let fromReasoning :=
      match objGetObjOpt requestData "reasoning" with
      | some rm =>
        match objGetStrOpt rm "effort" with
        | some e => strTrim e
        | none => ""
      | none => ""
    if fromReasoning != "" then fromReasoning
    else effortFromModelSuffix requestData

/-- `resolveReasoningSummary`: the `reasoning.summary` value when the key
is present (possibly JSON null), else `"auto"`. -/
def resolveReasoningSummary (requestData : JObj) : Json :=
  match objGetObjOpt requestData "reasoning" with
  | some rm =>
    match objGet rm "summary" with
    | some s => s
    | none => Json.str "auto"
  | none => Json.str "auto"

/-- `buildReasoningSettings` from transform.go. -/
def buildReasoningSettings (requestData : JObj) : JObj :=
  let requestedEffort := resolveReasoningEffort requestData
  let normalizedEffort := normalizeReasoningEffort requestedEffort
  let backendModel := normalizeModel (resolveRequestModel requestData)
  let clampedEffort := clampReasoningEffortForModel normalizedEffort backendModel
  let summary := resolveReasoningSummary requestData
  let settings : JObj := []
  let settings :=
    if clampedEffort != "" then objSet settings "effort" (Json.str clampedEffort) else settings
  match summary with
  | Json.null => settings
  | s => objSet settings "summary" s

/-- The contribution of one inbound message to `extractInstructions`
(system-role messages only). -/
def extractInstructionsPart (m : Json) : List String :=
  match m with
  | Json.obj mm =>
    if getStr mm "role" != "system" then []
    else
      match objGet mm "content" with
      | some (Json.str v) => if v != "" then [replaceNames v] else []
      | some (Json.arr items) =>
        let segs := items.flatMap (fun ci =>
          match ci with
          | Json.obj cm =>
            let t := getStr cm "text"
            if t != "" then [replaceNames t] else []
          | _ => [])
        if segs.length > 0 then [strJoin segs "\n"] else []
      | _ => []
  | _ => []

/-- `extractInstructions` from transform.go: the sanitized text of all
system-role messages, joined with blank lines and trimmed. -/
def extractInstructions (requestData : JObj) : String :=
  let msgs := (objGetArrOpt requestData "messages").getD []
  strTrim (strJoin (msgs.flatMap extractInstructionsPart) "\n\n")

/-- `collectTextSegments` from transform.go. -/
def collectTextSegments (content : Option Json) (applyReplace : Bool) : List String :=
  match content with
  | some (Json.str v) =>
    let text := strTrim v
    if text == "" then []
    else [if applyReplace then replaceNames text else text]
  | some (Json.arr items) =>
    items.flatMap (fun item =>
      match item with
      | Json.obj m =>
        let text := getStr m "text"
        if text == "" then []
        else [if applyReplace then replaceNames text else text]
      | _ => [])
  | _ => []

/-- `extractArgumentsString` from transform.go (Go's `case nil` covers both
a missing key and JSON null, which unmarshal to a nil interface). -/
def extractArgumentsString (arg : Option Json) : String :=
  match arg with
  | some (Json.str v) => v
  | none => ""
  | some Json.null => ""
  | some v => jsonSerialize v

/-- `collectToolOutput` from transform.go. -/
def collectToolOutput (content : Option Json) : String :=
  match content with
  | some (Json.str v) => v
  | some (Json.arr items) =>
    strJoin
      (items.flatMap (fun item =>
        match item with
        | Json.obj m =>
          let t := getStr m "text"
          if t != "" then [t] else []
        | _ => []))
      "\n"
  | none => ""
  | some Json.null => ""
  | some v => jsonSerialize v

/-- `mapToolsToCodex` from transform.go (only `type == "function"` tools
survive; the result is the empty list when the inbound `tools` field is
missing or not an array — Go returns a nil slice there, observationally an
empty tool list). -/
def mapToolsToCodex (requestData : JObj) : List Json :=
  match objGetArrOpt requestData "tools" with
  | none => []
  | some toolsRaw =>
    toolsRaw.flatMap (fun t =>
      match t with
      | Json.obj tm =>
        match objGet tm "type" with
        | some (Json.str "function") =>
          match objGetObjOpt tm "function" with
          | some fn =>
            let name := getStr fn "name"
            let desc := getStr fn "description"
            let params := (objGet fn "parameters").getD Json.null
            [Json.obj [("type", Json.str "function"), ("name", Json.str name),
              ("description", Json.str desc), ("strict", Json.bool false),
              ("parameters", params)]]
          | none => []
        | _ => []
      | _ => [])

/-- The synthetic user message at the head of `input` carrying the joined
system text. -/
def sysPromptMessage (systemPrompt : String) : Json :=
  Json.obj [("type", Json.str "message"), ("id", Json.null), ("role", Json.str "user"),
    ("content", Json.arr [Json.obj [("type", Json.str "input_text"),
      ("text", Json.str systemPrompt)]])]

/-- The `function_call` item produced from one assistant `tool_calls`
entry (the inner loop of `buildCodexInputMessages`). -/
def toolCallItem (tc : Json) : List Json :=
  match tc with
  | Json.obj tcm =>
    let callID := getStr tcm "id"
    let funcMap := (objGetObjOpt tcm "function").getD []
    let name := getStr funcMap "name"
    let arguments := extractArgumentsString (objGet funcMap "arguments")
    [Json.obj [("type", Json.str "function_call"), ("name", Json.str name),
      ("call_id", Json.str callID), ("arguments", Json.str arguments)]]
  | _ => []

/-- The items one inbound chat message contributes to the Codex `input`
array (`buildCodexInputMessages` loop body). -/
def chatMessageItems (m : Json) : List Json :=
  match m with
  | Json.obj mm =>
    let role := getStr mm "role"
    if role == "user" then
      let texts := collectTextSegments (objGet mm "content") true
      if texts.isEmpty then []
      else
        let contents := texts.map (fun t =>
          Json.obj [("type", Json.str "input_text"), ("text", Json.str t)])
        [Json.obj [("type", Json.str "message"), ("id", (objGet mm "id").getD Json.null),
          ("role", Json.str "user"), ("content", Json.arr contents)]]
    else if role == "assistant" then
      let texts := collectTextSegments (objGet mm "content") true
      let msgPart :=
        if texts.isEmpty then []
        else
          let contents := texts.map (fun t =>
            Json.obj [("type", Json.str "output_text"), ("text", Json.str t)])
          [Json.obj [("type", Json.str "message"), ("id", (objGet mm "id").getD Json.null),
            ("role", Json.str "assistant"), ("content", Json.arr contents)]]
      let toolParts :=
        match objGetArrOpt mm "tool_calls" with
        | some toolCalls => toolCalls.flatMap toolCallItem
        | none => []
      msgPart ++ toolParts
    else if role == "tool" then
      let callID := getStr mm "tool_call_id"
      if callID == "" then []
      else
        [Json.obj [("type", Json.str "function_call_output"), ("call_id", Json.str callID),
          ("output", Json.str (collectToolOutput (objGet mm "content")))]]
    else []
  | _ => []

/-- `buildCodexInputMessages` from transform.go: the synthetic
system-derived user message, then the converted inbound messages. -/
def buildCodexInputMessages (requestData : JObj) : List Json :=
  sysPromptMessage (extractInstructions requestData) ::
    ((objGetArrOpt requestData "messages").getD []).flatMap chatMessageItems

/-- First non-blank `text` of a content array, sanitized
(`extractFirstUserText` inner loop). -/
def firstNonBlankText (contentItems : List Json) : Option String :=
  match contentItems with
  | [] => none
  | item :: rest =>
    match item with
    | Json.obj im =>
      let text := getStr im "text"
      if strTrim text != "" then some (replaceNames text) else firstNonBlankText rest
    | _ => firstNonBlankText rest

/-- Scan of the upstream-shaped `input` array for the first user text. -/
def firstUserTextFromInput (entries : List Json) : Option String :=
  match entries with
  | [] => none
  | e :: rest =>
    match e with
    | Json.obj em =>
      if getStr em "role" != "user" then firstUserTextFromInput rest
      else
        match objGetArrOpt em "content" with
        | some cs =>
          match firstNonBlankText cs with
          | some t => some t
          | none => firstUserTextFromInput rest
        | none => firstUserTextFromInput rest
    | _ => firstUserTextFromInput rest

/-- Fallback scan of chat-style `messages` for the first user text. -/
def firstUserTextFromMessages (msgs : List Json) : Option String :=
  match msgs with
  | [] => none
  | m :: rest =>
    match m with
    | Json.obj mm =>
      if getStr mm "role" != "user" then firstUserTextFromMessages rest
      else
        match objGet mm "content" with
        | some (Json.str v) =>
          if strTrim v != "" then some (replaceNames v) else firstUserTextFromMessages rest
        | some (Json.arr cs) =>
          match firstNonBlankText cs with
          | some t => some t
          | none => firstUserTextFromMessages rest
        | _ => firstUserTextFromMessages rest
    | _ => firstUserTextFromMessages rest

/-- `extractFirstUserText` from transform.go (the body returns `""` when
there is no `input` key at all; otherwise it scans `input` and then falls
back to `messages`). -/
def extractFirstUserText (body : JObj) : String :=
  match objGet body "input" with
  | none => ""
  | some inputVal =>
    let fromInput :=
      match inputVal with
      | Json.arr entries => firstUserTextFromInput entries
      | _ => none
    match fromInput with
    | some t => t
    | none =>
      match objGetArrOpt body "messages" with
      | some msgs => (firstUserTextFromMessages msgs).getD ""
      | none => ""

/-- The cache-key attachment shared by both transforms:
`if key := derivePromptCacheKey(...); key != "" { body["prompt_cache_key"] = key }`. -/
def maybeAddCacheKey (body : JObj) (key : String) : JObj :=
  if key != "" then objSet body "prompt_cache_key" (Json.str key) else body

/-- The constant "inverse prompt" user message prepended to `input`. -/
def initialGreeting : Json :=
  Json.obj [("type", Json.str "message"), ("id", Json.null), ("role", Json.str "user"),
    ("content", Json.arr [Json.obj [("type", Json.str "input_text"),
      ("text", Json.str inversePrompt)]])]

/-- The body of `buildCodexRequestBody` up to (but excluding) the final
prompt-cache-key attachment: every field assignment of the transform in
source order. -/
def buildCodexRequestBodyCore (requestData : JObj) : JObj :=
  let pfx := codexInstructionsPrefixStr
  let normalizedModel := normalizeModel (resolveRequestModel requestData)
  let body : JObj := []
  let body := objSet body "model" (Json.str normalizedModel)
  let body := objSet body "instructions" (Json.str pfx)
  let body := objSet body "store" (Json.bool false)
  let body := objSet body "stream" (Json.bool true)
  let inputMsgs := buildCodexInputMessages requestData
  let body :=
    if inputMsgs.isEmpty then body
    else objSet body "input" (Json.arr (initialGreeting :: inputMsgs))
  let body := objSet body "tools" (Json.arr (mapToolsToCodex requestData))
  let body := objSet body "tool_choice" (Json.str
    (match objGetStrOpt requestData "tool_choice" with
     | some tc => if tc != "" then tc else "auto"
     | none => "auto"))
  let body := objSet body "parallel_tool_calls" (Json.bool
    (match objGet requestData "parallel_tool_calls" with
     | some (Json.bool p) => p
     | _ => false))
  let body := objSet body "reasoning" (Json.obj (buildReasoningSettings requestData))
  objSet body "include" (Json.arr [Json.str "reasoning.encrypted_content"])

/-- `buildCodexRequestBody` from transform.go: the Chat-Completions →
Codex Responses body transform (the assignments of
`buildCodexRequestBodyCore` followed by the prompt-cache-key
attachment). -/
def buildCodexRequestBody (requestData : JObj) : JObj :=
  let body := buildCodexRequestBodyCore requestData
  match objGetStrOpt body "prompt_cache_key" with
  | some _ => body
  | none =>
    maybeAddCacheKey body
      (derivePromptCacheKey (normalizeModel (resolveRequestModel requestData))
        codexInstructionsPrefixStr (extractFirstUserText body))

/-! ## Responses request transform (`transformResponsesRequestBody`,
`sanitizeResponsesInput`) -/

/-- First pass of `transformResponsesRequestBody` over the caller `input`:
system-role objects are removed and their text segments joined with blank
lines into `systemText` (a later system message overwrites an earlier
one, as in the source); everything else is kept in order. -/
def transformResponsesFirstPass (input : List Json) : String × List Json :=
  input.foldl
    (fun (acc : String × List Json) msg =>
      match msg with
      | Json.obj msgMap =>
        if getStr msgMap "role" == "system" then
          let parts :=
            match objGetArrOpt msgMap "content" with
            | some contents =>
              contents.flatMap (fun item =>
                match item with
                | Json.obj itemMap =>
                  match objGetStrOpt itemMap "text" with
                  | some text => if text != "" then [text] else []
                  | none => []
                | _ => [])
            | none => []
          (strJoin parts "\n\n", acc.2)
        else (acc.1, acc.2 ++ [msg])
      | _ => (acc.1, acc.2 ++ [msg]))
    ("", [])

/-- The fate of one item under `sanitizeResponsesInput`: dropped when it is
a system-role object, otherwise kept with its text segments sanitized (Go
mutates the content items in place; rebuilding the object is
observationally the same). -/
def sanitizeItem (msg : Json) : List Json :=
  match msg with
  | Json.obj msgMap =>
    if getStr msgMap "role" == "system" then []
    else
      match objGetArrOpt msgMap "content" with
      | none => [msg]
      | some contents =>
        let contents' := contents.map (fun item =>
          match item with
          | Json.obj itemMap =>
            match objGetStrOpt itemMap "text" with
            | some text =>
              if text != "" then Json.obj (objSet itemMap "text" (Json.str (replaceNames text)))
              else item
            | none => item
          | _ => item)
        [Json.obj (objSet msgMap "content" (Json.arr contents'))]
  | _ => [msg]

/-- `sanitizeResponsesInput` from the responses transform source. -/
def sanitizeResponsesInput (body : JObj) : JObj :=
  match objGetArrOpt body "input" with
  | none => body
  | some input => objSet body "input" (Json.arr (input.flatMap sanitizeItem))

/-- The tail of `transformResponsesRequestBody` after
`sanitizeResponsesInput` (the contiguous source block from the `include`
assignment to the prompt-cache-key attachment): defaults, token-limit
removal, reasoning settings, and the cache key.  Returns the updated body
and the clamped effort. -/
def respFinalSteps (body : JObj) (normalizedModel requestedEffort : String) : JObj × String :=
  let body := objSet body "include" (Json.arr [Json.str "reasoning.encrypted_content"])
  let body :=
    match objGet body "tool_choice" with
    | some _ => body
    | none => objSet body "tool_choice" (Json.str "auto")
  let body :=
    match objGet body "parallel_tool_calls" with
    | some _ => body
    | none => objSet body "parallel_tool_calls" (Json.bool false)
  let body :=
    match objGet body "max_output_tokens" with
    | some _ => objDel body "max_output_tokens"
    | none => body
  let body :=
    match objGet body "max_tokens" with
    | some _ => objDel body "max_tokens"
    | none => body
  let normalizedEffort := normalizeReasoningEffort requestedEffort
  let clampedEffort := clampReasoningEffortForModel normalizedEffort normalizedModel
  let summary := resolveReasoningSummary body
  let reasoningSettings : JObj := []
  let reasoningSettings :=
    match summary with
    | Json.null => reasoningSettings
    | s => objSet reasoningSettings "summary" s
  let reasoningSettings :=
    if clampedEffort != "" then objSet reasoningSettings "effort" (Json.str clampedEffort)
    else reasoningSettings
  let body :=
    if reasoningSettings.isEmpty then objDel body "reasoning"
    else objSet body "reasoning" (Json.obj reasoningSettings)
  let body := objDel body "reasoning_effort"
  let body :=
    match objGetStrOpt body "prompt_cache_key" with
    | some _ => body
    | none =>
      maybeAddCacheKey body
        (derivePromptCacheKey normalizedModel (getStr body "instructions")
          (extractFirstUserText body))
  (body, clampedEffort)

/-- `transformResponsesRequestBody` (the current, developer-message variant
of the responses transform).  Go mutates `body` and returns
`(normalizedModel, clampedEffort)`; here the updated body is returned as
the first component. -/
def transformResponsesRequestBody (body : JObj) (requestedModel requestedEffort : String) :
    JObj × String × String :=
  let normalizedModel := normalizeModel requestedModel
  let body := objSet body "model" (Json.str normalizedModel)
  let body := objSet body "store" (Json.bool false)
  let userInstr :=
    match objGetStrOpt body "instructions" with
    | some s => strTrim s
    | none => ""
  let body :=
    match objGetStrOpt body "instructions" with
    | some _ => objDel body "instructions"
    | none => body
  let sysAndKept :=
    match objGetArrOpt body "input" with
    | some inSlice => transformResponsesFirstPass inSlice
    | none => ("", [])
  let systemText := sysAndKept.1
  let kept := sysAndKept.2
  let bodyAndInput :=
    if userInstr != "" && systemText != "" then
      (objSet body "instructions" (Json.str userInstr),
        Json.obj [("role", Json.str "developer"),
          ("content", Json.str (replaceNames systemText))] :: kept)
    else if userInstr != "" then (objSet body "instructions" (Json.str userInstr), kept)
    else if systemText != "" then
      (objSet body "instructions" (Json.str (replaceNames systemText)), kept)
    else (objSet body "instructions" (Json.str ""), kept)
  let body := objSet bodyAndInput.1 "input" (Json.arr bodyAndInput.2)
  let body := sanitizeResponsesInput body
  let bodyAndEffort := respFinalSteps body normalizedModel requestedEffort
  (bodyAndEffort.1, normalizedModel, bodyAndEffort.2)

/-! ## SSE stream rewriter (`SSETransformer`, `RewriteSSEStreamWithCallback`)

The rewriter is modelled at event granularity: the `bufio` scanner of
`RewriteSSEStreamWithCallback` joins the `data:` lines of each SSE event
into one payload string; each payload is then (in `Transform`) trimmed,
compared against `[DONE]`, and `json.Unmarshal`ed.  `SSEPayload` is the
result of that standard-library boundary: every payload is exactly one of
blank, the `[DONE]` sentinel, a parsed JSON value, or malformed bytes. -/

/-- Generic Go-map read for the transformer's bookkeeping maps. -/
def assocGet {α : Type} (m : List (String × α)) (k : String) : Option α :=
  (m.find? (fun p => p.1 == k)).map (·.2)

/-- Generic Go-map write for the transformer's bookkeeping maps. -/
def assocSet {α : Type} (m : List (String × α)) (k : String) (v : α) : List (String × α) :=
  m.filter (fun p => p.1 != k) ++ [(k, v)]

/-- One joined SSE event payload after trimming, the `[DONE]` comparison
and `json.Unmarshal` (which only succeeds on valid JSON). -/
inductive SSEPayload where
  | empty
  | doneMark
  | json (j : Json)
  | malformed (raw : String)

/-- Per-stream state of the SSE transformer (transform.go). -/
structure SSETransformer where
  model : String
  responseID : String
  roleSent : Bool
  toolIndexByItemID : List (String × Nat)
  toolIDByItemID : List (String × String)
  toolNameByItemID : List (String × String)
  nextToolIndex : Nat
  sawToolCalls : Bool

/-- `NewSSETransformer` from transform.go. -/
def NewSSETransformer (model : String) : SSETransformer :=
  let model := strTrim model
  let model := if model == "" then modelGPT5 else model
  { model := model, responseID := "", roleSent := false, toolIndexByItemID := [],
    toolIDByItemID := [], toolNameByItemID := [], nextToolIndex := 0, sawToolCalls := false }

/-- `fixReasoningMarkdownHeaders` from transform.go: prepend a blank line
only when the delta both starts with `**` and closes the bold marker
within the same delta. -/
def fixReasoningMarkdownHeaders (text : String) : String :=
  if text == "" then text
  else if text.data.length ≥ 4 ∧ text.data.getD 0 ' ' = '*' ∧ text.data.getD 1 ' ' = '*' then
    if strContainsSub ⟨text.data.drop 2⟩ "**" then "\n\n" ++ text else text
  else text

/-- First non-empty `text` of a reasoning `summary` array. -/
def firstSummaryText (summaryArr : List Json) : String :=
  match summaryArr with
  | [] => ""
  | entry :: rest =>
    match entry with
    | Json.obj sm =>
      let t := getStr sm "text"
      if t != "" then t else firstSummaryText rest
    | _ => firstSummaryText rest

/-- `extractReasoningContent` from transform.go (including the final
`fixReasoningMarkdownHeaders` application on a non-empty result). -/
def extractReasoningContent (evt : JObj) : String :=
  let deltaS := getStr evt "delta"
  if deltaS != "" then fixReasoningMarkdownHeaders deltaS
  else
    let textS := getStr evt "text"
    if textS != "" then fixReasoningMarkdownHeaders textS
    else
      match objGetObjOpt evt "part" with
      | some part =>
        let t := getStr part "text"
        if t != "" then fixReasoningMarkdownHeaders t else ""
      | none =>
        match objGetObjOpt evt "item" with
        | some item =>
          let encNonEmpty :=
            match objGetStrOpt item "encrypted_content" with
            | some enc => enc != ""
            | none => false
          if encNonEmpty then ""
          else
            let content :=
              match objGetArrOpt item "summary" with
              | some arr => firstSummaryText arr
              | none => ""
            if content != "" then fixReasoningMarkdownHeaders content else ""
        | none =>
          match objGetArrOpt evt "summary" with
          | some arr =>
            let content := firstSummaryText arr
            if content != "" then fixReasoningMarkdownHeaders content else ""
          | none => ""

/-- An ordinary `chat.completion.chunk` with index-0 choice, the given
delta object and a null finish reason. -/
def mkChunk (t : SSETransformer) (seq : Json) (delta : JObj) : Json :=
  Json.obj [("id", Json.str t.responseID), ("object", Json.str "chat.completion.chunk"),
    ("created", seq), ("model", Json.str t.model),
    ("choices", Json.arr [Json.obj [("index", Json.num 0), ("delta", Json.obj delta),
      ("finish_reason", Json.null)]])]

/-- The `sendRole` closure of `Transform`: the assistant-role chunk is
emitted at most once per stream. -/
def sendRoleChunks (t : SSETransformer) (seq : Json) : SSETransformer × List Json :=
  if t.roleSent then (t, [])
  else ({ t with roleSent := true }, [mkChunk t seq [("role", Json.str "assistant")]])

/-- The body of `SSETransformer.Transform` once the payload parsed to a
JSON object: the upstream event dispatch.  Returns the updated state and
the emitted chunks (the Go code joins them with a newline; the framer then
writes one `data: …\n\n` frame per chunk). -/
def transformEvent (t : SSETransformer) (upstream : JObj) : SSETransformer × List Json :=
  let eventType := getStr upstream "type"
  let seq := (objGet upstream "sequence_number").getD Json.null
  if strStartsWith eventType "response.reasoning" then
    let skipIdx :=
      match objGetNumOpt upstream "output_index" with
      | some n => decide (n > 0)
      | none => false
    if skipIdx then (t, [])
    else if !(strContainsSub eventType ".delta") then (t, [])
    else
      let reasoningText := extractReasoningContent upstream
      if reasoningText == "" then (t, [])
      else
        let tAndRole := sendRoleChunks t seq
        (tAndRole.1, tAndRole.2 ++
          [mkChunk tAndRole.1 seq [("reasoning_content", Json.str reasoningText)]])
  else if eventType == "response.created" then
    match objGetObjOpt upstream "response" with
    | some resp =>
      match objGetStrOpt resp "id" with
      | some id => ({ t with responseID := "chatcmpl-" ++ id }, [])
      | none => (t, [])
    | none => (t, [])
  else if eventType == "response.output_item.added" then
    match objGetObjOpt upstream "item" with
    | none => (t, [])
    | some item =>
      if getStr item "type" != "function_call" then (t, [])
      else
        let fcID := getStr item "id"
        let callID0 := getStr item "call_id"
        let name := getStr item "name"
        let idxAndT :=
          match assocGet t.toolIndexByItemID fcID with
          | some idx => (idx, t)
          | none =>
            (t.nextToolIndex,
              { t with
                nextToolIndex := t.nextToolIndex + 1,
                toolIndexByItemID := assocSet t.toolIndexByItemID fcID t.nextToolIndex })
        let idx := idxAndT.1
        let t := idxAndT.2
        let callID := if callID0 == "" then "call_" ++ fcID else callID0
        let t :=
          { t with
            toolIDByItemID := assocSet t.toolIDByItemID fcID callID,
            toolNameByItemID := assocSet t.toolNameByItemID fcID name,
            sawToolCalls := true }
        let tAndRole := sendRoleChunks t seq
        (tAndRole.1, tAndRole.2 ++ [mkChunk tAndRole.1 seq [("tool_calls", Json.arr
          [Json.obj [("index", Json.num idx), ("id", Json.str callID),
            ("type", Json.str "function"),
            ("function", Json.obj [("name", Json.str name), ("arguments", Json.str "")])]])]])
  else if eventType == "response.function_call_arguments.delta" then
    let itemID := getStr upstream "item_id"
    match assocGet t.toolIndexByItemID itemID with
    | none => (t, [])
    | some idx =>
      let argDelta := getStr upstream "delta"
      let tAndRole := sendRoleChunks t seq
      (tAndRole.1, tAndRole.2 ++ [mkChunk tAndRole.1 seq [("tool_calls", Json.arr
        [Json.obj [("index", Json.num idx),
          ("function", Json.obj [("arguments", Json.str argDelta)])]])]])
  else if eventType == "response.function_call_arguments.done" then (t, [])
  else if eventType == "response.output_item.done" then (t, [])
  else if eventType == "response.output_text.delta" then
    let tAndRole := sendRoleChunks t seq
    let delta := getStr upstream "delta"
    (tAndRole.1, tAndRole.2 ++ [mkChunk tAndRole.1 seq [("content", Json.str delta)]])
  else if eventType == "response.completed" then
    let finish := if t.sawToolCalls then "tool_calls" else "stop"
    let fromResp :=
      match objGetObjOpt upstream "response" with
      | some respObj =>
        match objGetObjOpt respObj "usage" with
        | some u =>
          let outUsage : JObj := []
          let outUsage :=
            match objGetNumOpt u "prompt_tokens" with
            | some pt => objSet outUsage "prompt_tokens" (Json.num pt)
            | none =>
              match objGetNumOpt u "input_tokens" with
              | some it => objSet outUsage "prompt_tokens" (Json.num it)
              | none => outUsage
          let outUsage :=
            match objGetNumOpt u "completion_tokens" with
            | some ct => objSet outUsage "completion_tokens" (Json.num ct)
            | none =>
              match objGetNumOpt u "output_tokens" with
              | some ot => objSet outUsage "completion_tokens" (Json.num ot)
              | none => outUsage
          let outUsage :=
            match objGetNumOpt u "total_tokens" with
            | some tt => objSet outUsage "total_tokens" (Json.num tt)
            | none =>
              match objGetNumOpt outUsage "prompt_tokens",
                  objGetNumOpt outUsage "completion_tokens" with
              | some pt, some ct => objSet outUsage "total_tokens" (Json.num (pt + ct))
              | _, _ => outUsage
          if outUsage.isEmpty then none else some outUsage
        | none => none
      | none => none
    let usage :=
      match fromResp with
      | some u => u
      | none => [("prompt_tokens", Json.num 0), ("completion_tokens", Json.num 0),
          ("total_tokens", Json.num 0)]
    (t, [Json.obj [("id", Json.str t.responseID), ("object", Json.str "chat.completion.chunk"),
      ("created", seq), ("model", Json.str t.model),
      ("choices", Json.arr [Json.obj [("index", Json.num 0), ("delta", Json.obj []),
        ("finish_reason", Json.str finish)]]),
      ("usage", Json.obj usage)]])
  else (t, [])

/-- `SSETransformer.Transform`: blank payload → nothing, `[DONE]` → done,
unparseable payload (or JSON that is not an object, which also fails Go's
unmarshal into `map[string]interface{}`) → error, JSON object → event
dispatch. -/
def SSETransformer.transform (t : SSETransformer) (p : SSEPayload) :
    Except String (SSETransformer × List Json × Bool) :=
  match p with
  | SSEPayload.empty => Except.ok (t, [], false)
  | SSEPayload.doneMark => Except.ok (t, [], true)
  | SSEPayload.malformed _ => Except.error "invalid upstream JSON chunk"
  | SSEPayload.json (Json.obj fields) =>
    let r := transformEvent t fields
    Except.ok (r.1, r.2, false)
  | SSEPayload.json _ => Except.error "invalid upstream JSON chunk"

/-- One downstream SSE frame.  A `chunk j` frame is written as
`data: <serialized j>\n\n`; `doneFrame` is the literal
`data: [DONE]\n\n`.  Serialized chunks are JSON objects (they begin with a
brace), so a chunk frame's bytes are never the `[DONE]` sentinel. -/
inductive SSEFrame where
  | doneFrame
  | chunk (j : Json)

/-- `flushEvent` from `RewriteSSEStreamWithCallback`: transform the joined
payload; on `[DONE]` write the sentinel; otherwise write the produced
chunks; when nothing was produced, pass a `chat.completion.chunk` object
through unchanged. -/
def flushEventStep (t : SSETransformer) (p : SSEPayload) :
    Except String (SSETransformer × List SSEFrame × Bool) :=
  match t.transform p with
  | Except.error e => Except.error e
  | Except.ok (t', chunks, isDone) =>
    if isDone then Except.ok (t', [SSEFrame.doneFrame], true)
    else if !chunks.isEmpty then Except.ok (t', chunks.map SSEFrame.chunk, false)
    else
      match p with
      | SSEPayload.json (Json.obj probe) =>
        if getStr probe "object" == "chat.completion.chunk" then
          Except.ok (t', [SSEFrame.chunk (Json.obj probe)], false)
        else Except.ok (t', [], false)
      | _ => Except.ok (t', [], false)

/-- The event loop of `RewriteSSEStreamWithCallback`: events are flushed
in order; the first transform error aborts the whole rewrite; `doneSeen`
records whether a `[DONE]` sentinel was written. -/
def rewriteLoop (t : SSETransformer) (events : List SSEPayload) (doneSeen : Bool) :
    Except String (List SSEFrame × Bool) :=
  match events with
  | [] => Except.ok ([], doneSeen)
  | e :: rest =>
    match flushEventStep t e with
    | Except.error err => Except.error err
    | Except.ok (t', fs, isDone) =>
      match rewriteLoop t' rest (doneSeen || isDone) with
      | Except.error err => Except.error err
      | Except.ok (fs', d) => Except.ok (fs ++ fs', d)

/-- `RewriteSSEStream` / `RewriteSSEStreamWithCallback`: rewrite the whole
upstream stream and append a synthetic `[DONE]` frame when the upstream
stream did not contain one. -/
def rewriteSSEStream (events : List SSEPayload) (model : String) :
    Except String (List SSEFrame) :=
  match rewriteLoop (NewSSETransformer model) events false with
  | Except.error err => Except.error err
  | Except.ok (fs, doneSeen) =>
    Except.ok (if doneSeen then fs else fs ++ [SSEFrame.doneFrame])

/-- The upstream event types that `transformEvent` dispatches on; any
other type falls into its final catch-all branch and is ignored. -/
def handledEventType (ty : String) : Bool :=
  strStartsWith ty "response.reasoning" || ty == "response.created" ||
  ty == "response.output_item.added" || ty == "response.function_call_arguments.delta" ||
  ty == "response.function_call_arguments.done" || ty == "response.output_item.done" ||
  ty == "response.output_text.delta" || ty == "response.completed"

/-- Whether a frame is the `[DONE]` sentinel. -/
def SSEFrame.isDone : SSEFrame → Bool
  | SSEFrame.doneFrame => true
  | _ => false

/-- Whether a payload is the `[DONE]` sentinel. -/
def SSEPayload.isDoneMark : SSEPayload → Bool
  | SSEPayload.doneMark => true
  | _ => false

/-- The per-item predicate of the system-erasure invariant: the item's
`role` field (as the program reads it) is not `"system"`. -/
def noSystemRole (j : Json) : Bool := jsonRole j != "system"

/-- The inbound body of the spec's "Responses transform with system
message" scenario. -/
def responsesScenarioBody : JObj :=
  [ ("instructions", Json.str "Please greet Zed."),
    ("input", Json.arr [Json.obj [("role", Json.str "user"),
      ("content", Json.arr [Json.obj [("type", Json.str "input_text"),
        ("text", Json.str "Hello from Zed")]])]]),
    ("reasoning_effort", Json.str "none"),
    ("model", Json.str "gpt-5-codex-preview") ]

/-- The transformed body of that scenario, produced exactly as
`responsesHandler` does: requested model and effort are resolved from the
body, then the transform is applied. -/
def responsesScenarioResult : JObj :=
  (transformResponsesRequestBody responsesScenarioBody
    (resolveRequestModel responsesScenarioBody)
    (resolveReasoningEffort responsesScenarioBody)).1

/-! ## 401 retry layer (`makeChatGPTRequestWithRetry`,
`chatCompletionsHandler` / `responsesHandler` in server.go)

`makeChatGPTRequest` builds the upstream POST with a fresh
`session_id: newUUIDv4()` header on every call; freshness is modelled by
numbering the upstream calls 0, 1, … and recording which numbers were
used.  The upstream and the credentials fetcher are modelled by their
outcomes: `upstream k` is the result (transport error or HTTP status) of
the `k`-th upstream call, `getCreds1`/`getCreds2` the two possible
`GetCredentials()` results, and `refreshResult` the outcome of the forced
`RefreshCredentials()` (`none` = success). -/

structure RetryOutcome where
  statusCode : Nat
  err : Option String
  sessionIDs : List Nat

/-- `makeChatGPTRequestWithRetry` from server.go. -/
def makeChatGPTRequestWithRetry (getCreds1 getCreds2 : Except String (String × String))
    (refreshResult : Option String) (upstream : Nat → Except String Nat) : RetryOutcome :=
  match getCreds1 with
  | Except.error e => ⟨0, some ("failed to get credentials: " ++ e), []⟩
  | Except.ok _ =>
    match upstream 0 with
    | Except.error e => ⟨0, some e, [0]⟩
    | Except.ok status1 =>
      if status1 != 401 then ⟨status1, none, [0]⟩
      else
        match refreshResult with
        | some e => ⟨401, some ("token expired and refresh failed: " ++ e), [0]⟩
        | none =>
          match getCreds2 with
          | Except.error e => ⟨0, some ("failed to get refreshed credentials: " ++ e), [0]⟩
          | Except.ok _ =>
            match upstream 1 with
            | Except.error e => ⟨0, some ("retry request failed: " ++ e), [0, 1]⟩
            | Except.ok status2 => ⟨status2, none, [0, 1]⟩

/-- The status the handlers send to the client: any error from the retry
helper becomes `http.Error(..., http.StatusServiceUnavailable)` (503);
otherwise `writeResponse` forwards the upstream status code. -/
def handlerClientStatus (ro : RetryOutcome) : Nat :=
  match ro.err with
  | some _ => 503
  | none => ro.statusCode

/-! ## OAuth fetcher (`internal/auth`) -/

/-- `TokenExpiryBuffer.Milliseconds()`: 60 minutes. -/
def tokenExpiryBufferMs : Int := 60 * 60 * 1000

/-- `TokenExpired` from the auth package (with the current time passed
explicitly). -/
def tokenExpired (currentTimeMs expiresAtMs : Int) : Bool :=
  currentTimeMs ≥ expiresAtMs - tokenExpiryBufferMs

/-- `credentials.OAuthCredentials`. -/
structure OAuthCredentials where
  accessToken : String
  refreshToken : String
  expiresAt : Int
  userID : String

/-- `auth.TokenRefreshResponse` (the fields `GetCredentials` uses). -/
structure TokenRefreshResponse where
  accessToken : String
  refreshToken : String
  expiresIn : Int

/-- `CalculateExpiresAt` from the auth package (with the current time in
seconds passed explicitly). -/
def calculateExpiresAt (nowSec expiresIn : Int) : Int :=
  (nowSec + expiresIn) * 1000

/-- `OAuthFetcher.GetCredentials`, with the effects of the wrapped store
and of `RefreshToken` passed as outcomes: load the full credentials; when
the token is expired attempt a refresh, and on refresh failure (or a
failing `UpdateTokens` persistence) still return without error — a stale
access token on refresh failure, the fresh one otherwise. -/
def oauthGetCredentials (fullCreds : Except String OAuthCredentials) (nowMs : Int)
    (refreshResult : Except String TokenRefreshResponse) (updateErr : Option String) :
    Except String (String × String) :=
  match fullCreds with
  | Except.error e => Except.error ("failed to get full credentials: " ++ e)
  | Except.ok creds =>
    if tokenExpired nowMs creds.expiresAt then
      match refreshResult with
      | Except.error _ => Except.ok (creds.accessToken, creds.userID)
      | Except.ok newTokens =>
        match updateErr with
        | some _ => Except.ok (newTokens.accessToken, creds.userID)
        | none => Except.ok (newTokens.accessToken, creds.userID)
    else Except.ok (creds.accessToken, creds.userID)

/-! ## Association-list lemmas for the Go-map embedding -/

theorem find?_filter_ne (f : JObj) (k : String) :
    (f.filter (fun p => p.1 != k)).find? (fun p => p.1 == k) = none := by
  rw [List.find?_eq_none]
  intro p hp
  have h2 := (List.mem_filter.mp hp).2
  simp only [bne_iff_ne, ne_eq] at h2
  simp [h2]

theorem find?_filter_of_ne (f : JObj) (k k' : String) (h : k' ≠ k) :
    (f.filter (fun p => p.1 != k)).find? (fun p => p.1 == k') =
      f.find? (fun p => p.1 == k') := by
  induction f with
  | nil => rfl
  | cons p t ih =>
    cases hbk : (p.1 == k) with
    | true =>
      have hpk : p.1 = k := by simpa using hbk
      have hk' : (p.1 == k') = false := by
        rw [beq_eq_false_iff_ne, hpk]
        exact fun hh => h hh.symm
      rw [List.filter_cons]
      simp only [bne, hbk, Bool.not_true, if_neg, Bool.false_eq_true, not_false_eq_true]
      rw [List.find?_cons_of_neg _ (by simp [hk'])]
      exact ih
    | false =>
      rw [List.filter_cons]
      simp only [bne, hbk, Bool.not_false, if_pos]
      cases hbk' : (p.1 == k') with
      | true =>
        rw [List.find?_cons_of_pos _ (by simp [hbk']), List.find?_cons_of_pos _ (by simp [hbk'])]
      | false =>
        rw [List.find?_cons_of_neg _ (by simp [hbk']), List.find?_cons_of_neg _ (by simp [hbk'])]
        exact ih

theorem objGet_nil (k : String) : objGet [] k = none := rfl

theorem objGet_objSet_self (f : JObj) (k : String) (v : Json) :
    objGet (objSet f k v) k = some v := by
  unfold objGet objSet
  rw [List.find?_append, find?_filter_ne]
  simp [List.find?]

theorem objGet_objSet_ne (f : JObj) (k k' : String) (v : Json) (h : k' ≠ k) :
    objGet (objSet f k v) k' = objGet f k' := by
  unfold objGet objSet
  rw [List.find?_append, find?_filter_of_ne f k k' h]
  cases hf : f.find? (fun p => p.1 == k') with
  | some p => simp
  | none =>
    have hkk : (k == k') = false := by
      rw [beq_eq_false_iff_ne]
      exact fun hh => h hh.symm
    simp [List.find?, hkk]

theorem objGet_objDel_ne (f : JObj) (k k' : String) (h : k' ≠ k) :
    objGet (objDel f k) k' = objGet f k' := by
  unfold objGet objDel
  rw [find?_filter_of_ne f k k' h]

theorem getStr_objSet_ne (f : JObj) (k k' : String) (v : Json) (h : k' ≠ k) :
    getStr (objSet f k v) k' = getStr f k' := by
  unfold getStr objGetStrOpt
  rw [objGet_objSet_ne f k k' v h]

theorem objGet_objSet_bne (f : JObj) (k k' : String) (v : Json) (h : (k' == k) = false) :
    objGet (objSet f k v) k' = objGet f k' :=
  objGet_objSet_ne f k k' v (by simpa using h)

theorem objGet_objDel_bne (f : JObj) (k k' : String) (h : (k' == k) = false) :
    objGet (objDel f k) k' = objGet f k' :=
  objGet_objDel_ne f k k' (by simpa using h)

theorem objGet_ite (c : Prop) [Decidable c] (a b : JObj) (k : String) :
    objGet (if c then a else b) k = if c then objGet a k else objGet b k :=
  apply_ite (fun x => objGet x k) c a b

theorem objGet_objSet_self_arr (f : JObj) (k : String) (l : List Json) :
    objGetArrOpt (objSet f k (Json.arr l)) k = some l := by
  unfold objGetArrOpt
  rw [objGet_objSet_self]

theorem all_flatMap_of (p : Json → Bool) (f : Json → List Json)
    (h : ∀ a, (f a).all p = true) (l : List Json) : (l.flatMap f).all p = true := by
  induction l with
  | nil => rfl
  | cons a t ih => simp [List.flatMap_cons, List.all_append, ih, h a]

/-! ## Range lemmas for the normalizers -/

theorem normalizeModel_mem_range (x : String) :
    normalizeModel x ∈ normalizeModelRange := by
  unfold normalizeModel
  dsimp only
  repeat' split
  all_goals decide

theorem normalizeReasoningEffort_mem (e : String) :
    normalizeReasoningEffort e ∈ ["", "minimal", "low", "medium", "high", "xhigh"] := by
  unfold normalizeReasoningEffort
  dsimp only
  repeat' split
  all_goals decide

/-! ## Prompt-cache-key lemmas -/

theorem formatUUID_ne_empty (b : List Nat) : formatUUID b ≠ "" := by
  intro hEq
  have hLen := congrArg String.length hEq
  simp only [formatUUID, String.length_append,
    show ("-" : String).length = 1 from rfl, show ("" : String).length = 0 from rfl] at hLen
  omega

theorem derivePromptCacheKey_ne_empty (m i f : String) (hm : (strTrim m == "") = false) :
    derivePromptCacheKey m i f ≠ "" := by
  unfold derivePromptCacheKey
  simp only [hm, Bool.false_and, Bool.false_eq_true, if_neg, not_false_eq_true]
  exact formatUUID_ne_empty _

theorem strTrim_normalizeModel_ne_empty (x : String) :
    (strTrim (normalizeModel x) == "") = false := by
  have h := normalizeModel_mem_range x
  simp only [normalizeModelRange, List.mem_cons, List.not_mem_nil, or_false] at h
  rcases h with h | h | h | h | h | h | h | h | h <;> rw [h] <;> decide

theorem objGet_maybeAddCacheKey_ne (b : JObj) (key k : String) (h : k ≠ "prompt_cache_key") :
    objGet (maybeAddCacheKey b key) k = objGet b k := by
  unfold maybeAddCacheKey
  split
  · exact objGet_objSet_ne b "prompt_cache_key" k _ h
  · rfl

theorem objGet_maybeAddCacheKey_bne (b : JObj) (key k : String)
    (h : (k == "prompt_cache_key") = false) :
    objGet (maybeAddCacheKey b key) k = objGet b k :=
  objGet_maybeAddCacheKey_ne b key k (by simpa using h)

theorem objGet_maybeAddCacheKey_self (b : JObj) (key : String) (hkey : key ≠ "") :
    objGet (maybeAddCacheKey b key) "prompt_cache_key" = some (Json.str key) := by
  unfold maybeAddCacheKey
  rw [if_pos (by simpa using hkey)]
  exact objGet_objSet_self b "prompt_cache_key" _

/-! ## Field lemmas for the chat-completions transform -/

theorem buildCodexInputMessages_isEmpty (rd : JObj) :
    (buildCodexInputMessages rd).isEmpty = false := rfl

theorem core_objGet_pck (rd : JObj) :
    objGet (buildCodexRequestBodyCore rd) "prompt_cache_key" = none := by
  unfold buildCodexRequestBodyCore
  dsimp only
  simp only [objGet_objSet_bne, String.reduceBEq, objGet_ite, ite_self, objGet_nil]

theorem core_objGet_input (rd : JObj) :
    objGet (buildCodexRequestBodyCore rd) "input" =
      some (Json.arr (initialGreeting :: buildCodexInputMessages rd)) := by
  unfold buildCodexRequestBodyCore
  dsimp only
  simp only [objGet_objSet_bne, String.reduceBEq, buildCodexInputMessages_isEmpty,
    Bool.false_eq_true, if_false, objGet_objSet_self]

theorem core_objGet_instructions (rd : JObj) :
    objGet (buildCodexRequestBodyCore rd) "instructions" =
      some (Json.str codexInstructionsPrefixStr) := by
  unfold buildCodexRequestBodyCore
  dsimp only
  simp only [objGet_objSet_bne, String.reduceBEq, objGet_ite, ite_self, objGet_objSet_self]

theorem extractFirstUserText_core (rd : JObj) :
    extractFirstUserText (buildCodexRequestBodyCore rd) = replaceNames inversePrompt := by
  unfold extractFirstUserText
  rw [core_objGet_input]
  rfl

theorem core_objGetStrOpt_pck (rd : JObj) :
    objGetStrOpt (buildCodexRequestBodyCore rd) "prompt_cache_key" = none := by
  unfold objGetStrOpt
  rw [core_objGet_pck]

theorem buildBody_cache_key (rd : JObj) :
    objGet (buildCodexRequestBody rd) "prompt_cache_key" =
      some (Json.str (derivePromptCacheKey (normalizeModel (resolveRequestModel rd))
        codexInstructionsPrefixStr (replaceNames inversePrompt))) := by
  unfold buildCodexRequestBody
  dsimp only
  rw [core_objGetStrOpt_pck]
  rw [extractFirstUserText_core]
  exact objGet_maybeAddCacheKey_self _ _
    (derivePromptCacheKey_ne_empty _ _ _ (strTrim_normalizeModel_ne_empty _))

theorem build_objGet_input (rd : JObj) :
    objGet (buildCodexRequestBody rd) "input" =
      some (Json.arr (initialGreeting :: buildCodexInputMessages rd)) := by
  unfold buildCodexRequestBody
  dsimp only
  rw [core_objGetStrOpt_pck]
  rw [objGet_maybeAddCacheKey_ne _ _ _ (by decide)]
  exact core_objGet_input rd

theorem build_objGet_instructions (rd : JObj) :
    objGet (buildCodexRequestBody rd) "instructions" =
      some (Json.str codexInstructionsPrefixStr) := by
  unfold buildCodexRequestBody
  dsimp only
  rw [core_objGetStrOpt_pck]
  rw [objGet_maybeAddCacheKey_ne _ _ _ (by decide)]
  exact core_objGet_instructions rd

/-! ## System-erasure lemmas -/

theorem toolCallItem_no_system (tc : Json) : (toolCallItem tc).all noSystemRole = true := by
  unfold toolCallItem
  cases tc <;> rfl

theorem chatMessageItems_no_system (m : Json) :
    (chatMessageItems m).all noSystemRole = true := by
  unfold chatMessageItems
  cases m <;> try rfl
  dsimp only
  repeat' split
  all_goals try simp only [List.all_append, Bool.and_eq_true]
  all_goals try rfl
  all_goals refine ⟨by rfl, ?_⟩
  all_goals first
    | rfl
    | exact all_flatMap_of noSystemRole toolCallItem toolCallItem_no_system _

theorem respFinalSteps_objGet_input (b : JObj) (nm re : String) :
    objGet (respFinalSteps b nm re).1 "input" = objGet b "input" := by
  unfold respFinalSteps
  dsimp only
  repeat' split
  all_goals simp only [objGet_maybeAddCacheKey_bne _ _ _
      (by decide : (("input" : String) == "prompt_cache_key") = false),
    objGet_objSet_bne, objGet_objDel_bne, String.reduceBEq]

theorem sanitizeItem_no_system (msg : Json) :
    (sanitizeItem msg).all noSystemRole = true := by
  unfold sanitizeItem
  cases msg <;> try rfl
  dsimp only
  repeat' split
  all_goals
    first
    | rfl
    | (simp only [List.all_cons, List.all_nil, Bool.and_true, noSystemRole, jsonRole]
       try rw [getStr_objSet_ne _ _ _ _ (show ("role" : String) ≠ "content" by decide)]
       simp_all)

theorem sanitize_of_set_input (b : JObj) (l : List Json) :
    objGet (sanitizeResponsesInput (objSet b "input" (Json.arr l))) "input" =
      some (Json.arr (l.flatMap sanitizeItem)) := by
  unfold sanitizeResponsesInput
  rw [objGet_objSet_self_arr]
  exact objGet_objSet_self _ _ _

/-! ## SSE rewriter lemmas -/

theorem flushEventStep_done (t : SSETransformer) :
    flushEventStep t SSEPayload.doneMark = Except.ok (t, [SSEFrame.doneFrame], true) := rfl

theorem flushEventStep_malformed (t : SSETransformer) (s : String) :
    flushEventStep t (SSEPayload.malformed s) = Except.error "invalid upstream JSON chunk" := rfl

theorem flushEventStep_not_done (t : SSETransformer) (p : SSEPayload)
    (t' : SSETransformer) (fs : List SSEFrame) (d : Bool) (hp : p.isDoneMark = false)
    (h : flushEventStep t p = Except.ok (t', fs, d)) :
    d = false ∧ fs.all (fun fr => !fr.isDone) = true := by
  cases p with
  | doneMark => simp [SSEPayload.isDoneMark] at hp
  | empty =>
    simp only [flushEventStep, SSETransformer.transform] at h
    rcases h with ⟨⟩ | h
    simp_all [List.all_nil]
  | malformed s =>
    simp [flushEventStep, SSETransformer.transform] at h
  | json j =>
    cases j with
    | obj fields =>
      simp only [flushEventStep, SSETransformer.transform, Bool.false_eq_true, if_false,
        reduceIte] at h
      split at h
      · rcases h with ⟨⟩
        refine ⟨rfl, ?_⟩
        simp [List.all_map, SSEFrame.isDone, List.all_eq_true]
      · split at h
        · rcases h with ⟨⟩
          exact ⟨rfl, by simp [SSEFrame.isDone, List.all_eq_true]⟩
        · rcases h with ⟨⟩
          exact ⟨rfl, rfl⟩
    | null => simp [flushEventStep, SSETransformer.transform] at h
    | bool b => simp [flushEventStep, SSETransformer.transform] at h
    | num n => simp [flushEventStep, SSETransformer.transform] at h
    | str s => simp [flushEventStep, SSETransformer.transform] at h
    | arr xs => simp [flushEventStep, SSETransformer.transform] at h

theorem rewriteLoop_no_done (events : List SSEPayload) :
    ∀ (t : SSETransformer) (ds : Bool) (fs : List SSEFrame) (d : Bool),
      events.all (fun p => !p.isDoneMark) = true →
      rewriteLoop t events ds = Except.ok (fs, d) →
      fs.all (fun fr => !fr.isDone) = true ∧ d = ds := by
  induction events with
  | nil =>
    intro t ds fs d _ h
    simp only [rewriteLoop] at h
    rcases h with ⟨⟩
    exact ⟨rfl, rfl⟩
  | cons e rest ih =>
    intro t ds fs d hall h
    simp only [List.all_cons, Bool.and_eq_true] at hall
    have hne : e.isDoneMark = false := by simpa using hall.1
    simp only [rewriteLoop] at h
    rcases hstep : flushEventStep t e with _ | ⟨t', fsE, isD⟩
    · rw [hstep] at h; dsimp only at h; cases h
    · rw [hstep] at h
      dsimp only at h
      have hflush := flushEventStep_not_done t e t' fsE isD hne hstep
      rcases hrec : rewriteLoop t' rest (ds || isD) with _ | ⟨fs', d'⟩
      · rw [hrec] at h; dsimp only at h; cases h
      · rw [hrec] at h
        dsimp only at h
        rcases h with ⟨⟩
        rw [hflush.1] at hrec
        simp only [Bool.or_false] at hrec
        have hr := ih t' ds fs' d hall.2 hrec
        exact ⟨by simp [List.all_append, hflush.2, hr.1], hr.2⟩

theorem rewriteLoopFinal_done_unique_last (events : List SSEPayload) :
    ∀ (t : SSETransformer) (fs0 : List SSEFrame) (d : Bool),
      events.dropLast.all (fun p => !p.isDoneMark) = true →
      rewriteLoop t events false = Except.ok (fs0, d) →
      ((if d then fs0 else fs0 ++ [SSEFrame.doneFrame]).countP SSEFrame.isDone = 1 ∧
        (if d then fs0 else fs0 ++ [SSEFrame.doneFrame]).getLast? = some SSEFrame.doneFrame) := by
  induction events with
  | nil =>
    intro t fs0 d _ h
    simp only [rewriteLoop] at h
    rcases h with ⟨⟩
    simp [List.countP, List.countP.go, SSEFrame.isDone]
  | cons e rest ih =>
    intro t fs0 d hdl h
    simp only [rewriteLoop] at h
    rcases hstep : flushEventStep t e with _ | ⟨t', fsE, isD⟩
    · rw [hstep] at h; dsimp only at h; cases h
    · rw [hstep] at h
      dsimp only at h
      rcases hrec : rewriteLoop t' rest (false || isD) with _ | ⟨fs', d'⟩
      · rw [hrec] at h; dsimp only at h; cases h
      · rw [hrec] at h
        dsimp only at h
        rcases h with ⟨⟩
        cases rest with
        | nil =>
          simp only [rewriteLoop] at hrec
          rcases hrec with ⟨⟩
          cases he : e with
          | doneMark =>
            subst he
            rw [flushEventStep_done] at hstep
            rcases hstep with ⟨⟩
            simp [List.countP, List.countP.go, SSEFrame.isDone]
          | _ =>
            subst he
            all_goals {
              have hflush := flushEventStep_not_done _ _ _ _ _ (by rfl) hstep
              rw [hflush.1]
              simp only [Bool.false_eq_true, if_false, Bool.or_false, List.append_nil]
              have hfsE0 : fsE.countP SSEFrame.isDone = 0 := by
                rw [List.countP_eq_zero]
                intro fr hfr
                have hh := List.all_eq_true.mp hflush.2 fr hfr
                simpa using hh
              constructor
              · rw [List.countP_append, hfsE0]
                simp [List.countP, List.countP.go, SSEFrame.isDone]
              · rw [List.getLast?_append_of_ne_nil _ (by simp)]
                rfl }
        | cons r rs =>
          have hedl : e.isDoneMark = false ∧
              (r :: rs).dropLast.all (fun p => !p.isDoneMark) = true := by
            rw [List.dropLast_cons_of_ne_nil (by simp)] at hdl
            simp only [List.all_cons, Bool.and_eq_true] at hdl
            exact ⟨by simpa using hdl.1, hdl.2⟩
          have hflush := flushEventStep_not_done t e t' fsE isD hedl.1 hstep
          rw [hflush.1] at hrec
          simp only [Bool.or_false] at hrec
          have hIH := ih t' fs' d hedl.2 hrec
          have hfsE0 : fsE.countP SSEFrame.isDone = 0 := by
            rw [List.countP_eq_zero]
            intro fr hfr
            have hh := List.all_eq_true.mp hflush.2 fr hfr
            simpa using hh
          cases hd : d with
          | true =>
            subst hd
            simp only [reduceIte] at hIH ⊢
            constructor
            · rw [List.countP_append, hfsE0, hIH.1]
            · rw [List.getLast?_append_of_ne_nil _ ?_]
              · exact hIH.2
              · intro hnil
                rw [hnil] at hIH
                simp at hIH
          | false =>
            subst hd
            simp only [Bool.false_eq_true, if_false] at hIH
            simp only [Bool.false_eq_true, if_false]
            constructor
            · rw [List.append_assoc, List.countP_append, hfsE0, hIH.1]
            · rw [List.append_assoc, List.getLast?_append_of_ne_nil _ (by simp)]
              exact hIH.2

theorem transformEvent_unhandled (t : SSETransformer) (f : JObj)
    (h : handledEventType (getStr f "type") = false) :
    transformEvent t f = (t, []) := by
  unfold handledEventType at h
  simp only [Bool.or_eq_false_iff] at h
  obtain ⟨⟨⟨⟨⟨⟨⟨h1, h2⟩, h3⟩, h4⟩, h5⟩, h6⟩, h7⟩, h8⟩ := h
  unfold transformEvent
  dsimp only
  simp only [h1, h2, h3, h4, h5, h6, h7, h8, Bool.false_eq_true, if_false]

theorem flushEventStep_unhandled (t : SSETransformer) (f : JObj)
    (h1 : handledEventType (getStr f "type") = false)
    (h2 : (getStr f "object" == "chat.completion.chunk") = false) :
    flushEventStep t (SSEPayload.json (Json.obj f)) = Except.ok (t, [], false) := by
  unfold flushEventStep SSETransformer.transform
  dsimp only
  rw [transformEvent_unhandled t f h1]
  simp [h2]

/-! ## Claim theorems: model registry, transforms -/


/-- C8: the model normalizer is idempotent: every value `normalizeModel`
produces is a fixed point of the normalization procedure. -/
theorem normalizeModel_idempotent (x : String) :
    normalizeModel (normalizeModel x) = normalizeModel x := by
  have h := normalizeModel_mem_range x
  simp only [normalizeModelRange, List.mem_cons, List.not_mem_nil, or_false] at h
  rcases h with h | h | h | h | h | h | h | h | h <;> rw [h] <;> decide

/-- C10: the range of `normalizeModel` is exactly the nine ids of
`normalizeModelRange`; in particular `gpt-5.3-codex` and
`gpt-5.3-codex-spark` — advertised by `/v1/models` together with their
effort-suffix variants — are never produced, and
`normalizeModel "gpt-5.3-codex" = "gpt-5-codex"`. -/
theorem normalizeModel_range_exact :
    (∀ x : String, normalizeModel x ∈ normalizeModelRange) ∧
    (normalizeModelRange.all (fun m => normalizeModel m == m) = true) ∧
    normalizeModel "gpt-5.3-codex" = modelGPT5Codex ∧
    modelGPT53Codex ∉ normalizeModelRange ∧
    modelGPT53CodexSpark ∉ normalizeModelRange ∧
    modelGPT53Codex ∈ supportedModelsIds ∧
    modelGPT53CodexSpark ∈ supportedModelsIds ∧
    (["low", "medium", "high", "xhigh"].all
      (fun e => supportedModelsIds.contains ("gpt-5.3-codex-" ++ e)) = true) ∧
    (["low", "medium", "high", "xhigh"].all
      (fun e => supportedModelsIds.contains ("gpt-5.3-codex-spark-" ++ e)) = true) := by
  refine ⟨normalizeModel_mem_range, ?_, ?_, ?_, ?_, ?_, ?_, ?_, ?_⟩ <;> decide

/-- C3 counterexample: for the canonical model `gpt-5` (non-empty allowed
set, no default effort) the normalized effort `xhigh` is returned
unchanged although it is neither in `allowedEfforts(gpt-5)` nor unset, and
an unknown effort clamps to unset although `allowedEfforts(gpt-5)` is not
empty. -/
theorem clampReasoningEffort_cex :
    ¬ (clampReasoningEffortForModel (normalizeReasoningEffort "xhigh") modelGPT5 ∈
          allowedEffortsOf modelGPT5 ∨
        clampReasoningEffortForModel (normalizeReasoningEffort "xhigh") modelGPT5 = "") ∧
    clampReasoningEffortForModel (normalizeReasoningEffort "unknown") modelGPT5 = "" ∧
    allowedEffortsOf modelGPT5 ≠ [] := by
  refine ⟨?_, ?_, ?_⟩ <;> decide

/-- C3 (amended): for every canonical model and raw effort, the clamped
effort is a member of the model's allowed set or is the normalized
requested effort returned unchanged; it is unset exactly when the
normalized effort is unset and the model has no default effort (which can
happen although the allowed set is non-empty). -/
theorem clampReasoningEffort_closure (m e : String) (hm : m ∈ canonicalModelIDs) :
    (clampReasoningEffortForModel (normalizeReasoningEffort e) m ∈ allowedEffortsOf m ∨
      clampReasoningEffortForModel (normalizeReasoningEffort e) m = normalizeReasoningEffort e) ∧
    (clampReasoningEffortForModel (normalizeReasoningEffort e) m = "" ↔
      (normalizeReasoningEffort e = "" ∧ lookupDefaultEffort m = none)) := by
  have he := normalizeReasoningEffort_mem e
  simp only [List.mem_cons, List.not_mem_nil, or_false] at he
  simp only [canonicalModelIDs, List.mem_cons, List.not_mem_nil, or_false] at hm
  rcases hm with hm | hm | hm | hm | hm | hm | hm | hm | hm | hm | hm <;> subst hm <;>
    (rcases he with he | he | he | he | he | he <;> rw [he] <;> decide)

/-- C3 witness: the closure theorem applied at `gpt-5.1-codex-mini` and
raw effort `low`, which clamps into the allowed set (to the default
`medium`). -/
theorem clampReasoningEffort_closure_witness :
    (clampReasoningEffortForModel (normalizeReasoningEffort "low") modelGPT51CodexMini ∈
        allowedEffortsOf modelGPT51CodexMini ∨
      clampReasoningEffortForModel (normalizeReasoningEffort "low") modelGPT51CodexMini =
        normalizeReasoningEffort "low") ∧
    (clampReasoningEffortForModel (normalizeReasoningEffort "low") modelGPT51CodexMini = "" ↔
      (normalizeReasoningEffort "low" = "" ∧ lookupDefaultEffort modelGPT51CodexMini = none)) :=
  clampReasoningEffort_closure modelGPT51CodexMini "low" (by decide)


set_option maxHeartbeats 4000000 in
/-- C4: the spec's "Responses transform with system message" scenario:
the transformed body has `store:false`,
`include:["reasoning.encrypted_content"]`, `reasoning.effort:"low"`,
`tool_choice:"auto"`, `parallel_tool_calls:false`, no
`max_output_tokens`, no `reasoning_effort`, exactly one user message with
text `"Hello from Codex"`, and instructions equal to the original trimmed
instructions string. -/
theorem responsesScenario_fields :
    objGet responsesScenarioResult "store" = some (Json.bool false) ∧
    objGet responsesScenarioResult "include" =
      some (Json.arr [Json.str "reasoning.encrypted_content"]) ∧
    (objGetObjOpt responsesScenarioResult "reasoning").map (fun r => getStr r "effort") =
      some "low" ∧
    objGet responsesScenarioResult "tool_choice" = some (Json.str "auto") ∧
    objGet responsesScenarioResult "parallel_tool_calls" = some (Json.bool false) ∧
    objGet responsesScenarioResult "max_output_tokens" = none ∧
    objGet responsesScenarioResult "max_tokens" = none ∧
    objGet responsesScenarioResult "reasoning_effort" = none ∧
    objGet responsesScenarioResult "input" =
      some (Json.arr [Json.obj [("role", Json.str "user"),
        ("content", Json.arr [Json.obj [("type", Json.str "input_text"),
          ("text", Json.str "Hello from Codex")]])]]) ∧
    objGet responsesScenarioResult "instructions" = some (Json.str "Please greet Zed.") ∧
    objGet responsesScenarioResult "model" = some (Json.str "gpt-5-codex") :=
  ⟨rfl, rfl, rfl, rfl, rfl, rfl, rfl, rfl, rfl, rfl, rfl⟩

/-- C6: system erasure: after either request transform, no element of the
produced `input` array has `role == "system"` (chat path: system text is
joined into a synthetic user message; responses path: system items are
removed, their text merged into `instructions` or promoted to a
`developer` message). -/
theorem input_system_erasure :
    (∀ rd : JObj,
      ((objGetArrOpt (buildCodexRequestBody rd) "input").getD []).all noSystemRole = true) ∧
    (∀ (body : JObj) (rm re : String),
      ((objGetArrOpt (transformResponsesRequestBody body rm re).1 "input").getD []).all
        noSystemRole = true) := by
  constructor
  · intro rd
    unfold objGetArrOpt
    rw [build_objGet_input]
    show (List.all (initialGreeting :: buildCodexInputMessages rd) noSystemRole) = true
    rw [List.all_cons]
    unfold buildCodexInputMessages
    rw [List.all_cons]
    simp only [Bool.and_eq_true]
    refine ⟨rfl, rfl, ?_⟩
    exact all_flatMap_of noSystemRole chatMessageItems chatMessageItems_no_system _
  · intro body rm re
    unfold transformResponsesRequestBody
    dsimp only
    unfold objGetArrOpt
    rw [respFinalSteps_objGet_input, sanitize_of_set_input]
    exact all_flatMap_of noSystemRole sanitizeItem sanitizeItem_no_system _

/-- C9: the prompt-cache key of the chat-completions transform is a
function of the normalized model alone: the instructions fed to the
deriver are the constant Codex prefix and the first user text is the
constant (sanitized) inverse prompt, so two bodies with the same `model`
field — in particular bodies differing only in their `messages` — receive
the same key. -/
theorem promptCacheKey_model_function (b1 b2 : JObj)
    (h : objGet b1 "model" = objGet b2 "model") :
    objGet (buildCodexRequestBody b1) "prompt_cache_key" =
      objGet (buildCodexRequestBody b2) "prompt_cache_key" ∧
    (∀ b : JObj, objGet (buildCodexRequestBody b) "prompt_cache_key" =
      some (Json.str (derivePromptCacheKey (normalizeModel (resolveRequestModel b))
        codexInstructionsPrefixStr (replaceNames inversePrompt)))) ∧
    (∀ b : JObj, objGet (buildCodexRequestBody b) "instructions" =
      some (Json.str codexInstructionsPrefixStr)) := by
  have hm : resolveRequestModel b1 = resolveRequestModel b2 := by
    unfold resolveRequestModel objGetStrOpt
    rw [h]
  refine ⟨?_, buildBody_cache_key, build_objGet_instructions⟩
  rw [buildBody_cache_key, buildBody_cache_key, hm]

/-- C9 witness: two concrete bodies with the same model and different
messages receive the same prompt-cache key. -/
theorem promptCacheKey_model_function_witness :
    objGet (buildCodexRequestBody
        [("model", Json.str "gpt-5"), ("messages", Json.arr [Json.obj [("role", Json.str "user"),
          ("content", Json.str "first question")]])]) "prompt_cache_key" =
      objGet (buildCodexRequestBody
        [("model", Json.str "gpt-5"), ("messages", Json.arr [Json.obj [("role", Json.str "user"),
          ("content", Json.str "a completely different question")]])]) "prompt_cache_key" :=
  (promptCacheKey_model_function
    [("model", Json.str "gpt-5"), ("messages", Json.arr [Json.obj [("role", Json.str "user"),
      ("content", Json.str "first question")]])]
    [("model", Json.str "gpt-5"), ("messages", Json.arr [Json.obj [("role", Json.str "user"),
      ("content", Json.str "a completely different question")]])]
    (by rfl)).1

/-- C1 counterexample: when the first upstream call returns 401 and the
forced refresh fails, the handler does not propagate 401 — it maps the
retry helper's error to HTTP 503. -/
theorem retry401_refreshFail_cex :
    handlerClientStatus (makeChatGPTRequestWithRetry (Except.ok ("tok", "acct"))
      (Except.ok ("tok", "acct")) (some "refresh failed") (fun _ => Except.ok 401)) = 503 ∧
    (503 : Nat) ≠ 401 := by
  refine ⟨rfl, by decide⟩

/-- C1 (amended): on a first-call 401, if the forced refresh fails the
retry helper reports status 401 together with an error, and the handler
turns that error into a 503 response (not 401); if the refresh succeeds,
the upstream call is made exactly twice — the retry carrying a fresh
session id (call counter 1 after 0) — and the second status (including a
still-401) is returned without error and forwarded. -/
theorem retry401_behaviour (c : String × String) (g2 : Except String (String × String))
    (e : String) (upstream : Nat → Except String Nat) (st2 : Nat)
    (h1 : upstream 0 = Except.ok 401) :
    (handlerClientStatus (makeChatGPTRequestWithRetry (Except.ok c) g2 (some e) upstream) = 503 ∧
      (makeChatGPTRequestWithRetry (Except.ok c) g2 (some e) upstream).statusCode = 401) ∧
    (∀ c2 : String × String, g2 = Except.ok c2 → upstream 1 = Except.ok st2 →
      (makeChatGPTRequestWithRetry (Except.ok c) g2 none upstream).sessionIDs = [0, 1] ∧
      (makeChatGPTRequestWithRetry (Except.ok c) g2 none upstream).statusCode = st2 ∧
      (makeChatGPTRequestWithRetry (Except.ok c) g2 none upstream).err = none ∧
      handlerClientStatus (makeChatGPTRequestWithRetry (Except.ok c) g2 none upstream) = st2) := by
  constructor
  · unfold makeChatGPTRequestWithRetry handlerClientStatus
    rw [h1]
    simp
  · intro c2 hg2 h2
    subst hg2
    unfold makeChatGPTRequestWithRetry handlerClientStatus
    rw [h1, h2]
    simp

/-- C1 witness: the amended behaviour at a concrete fetcher and upstream
(first call 401, refresh succeeds, second call 200). -/
theorem retry401_behaviour_witness :
    (handlerClientStatus (makeChatGPTRequestWithRetry (Except.ok ("t", "a"))
        (Except.ok ("t2", "a")) (some "boom")
        (fun n => if n = 0 then Except.ok 401 else Except.ok 200)) = 503 ∧
      (makeChatGPTRequestWithRetry (Except.ok ("t", "a")) (Except.ok ("t2", "a")) (some "boom")
        (fun n => if n = 0 then Except.ok 401 else Except.ok 200)).statusCode = 401) ∧
    (∀ c2 : String × String,
      (Except.ok ("t2", "a") : Except String (String × String)) = Except.ok c2 →
      ((fun n => if n = 0 then Except.ok 401 else Except.ok 200 : Nat → Except String Nat) 1 =
        Except.ok 200) →
      (makeChatGPTRequestWithRetry (Except.ok ("t", "a")) (Except.ok ("t2", "a")) none
        (fun n => if n = 0 then Except.ok 401 else Except.ok (200 : Nat))).sessionIDs = [0, 1] ∧
      (makeChatGPTRequestWithRetry (Except.ok ("t", "a")) (Except.ok ("t2", "a")) none
        (fun n => if n = 0 then Except.ok 401 else Except.ok 200)).statusCode = 200 ∧
      (makeChatGPTRequestWithRetry (Except.ok ("t", "a")) (Except.ok ("t2", "a")) none
        (fun n => if n = 0 then Except.ok 401 else Except.ok 200)).err = none ∧
      handlerClientStatus (makeChatGPTRequestWithRetry (Except.ok ("t", "a"))
        (Except.ok ("t2", "a")) none
        (fun n => if n = 0 then Except.ok 401 else Except.ok 200)) = 200) :=
  retry401_behaviour ("t", "a") (Except.ok ("t2", "a")) "boom"
    (fun n => if n = 0 then Except.ok 401 else Except.ok 200) 200 (by rfl)

/-- C7: the OAuth fetcher treats a token as expired exactly when
`now_ms ≥ expiresAtMs − 60·60·1000`, and on the `GetCredentials` path an
expired token whose refresh fails still yields the stale access token
without an error. -/
theorem tokenExpiry_and_staleFallback :
    (∀ nowMs expiresAtMs : Int,
      tokenExpired nowMs expiresAtMs = true ↔ nowMs ≥ expiresAtMs - 60 * 60 * 1000) ∧
    (∀ (creds : OAuthCredentials) (nowMs : Int) (e : String) (updateErr : Option String),
      tokenExpired nowMs creds.expiresAt = true →
      oauthGetCredentials (Except.ok creds) nowMs (Except.error e) updateErr =
        Except.ok (creds.accessToken, creds.userID)) := by
  constructor
  · intro nowMs expiresAtMs
    unfold tokenExpired tokenExpiryBufferMs
    simp [ge_iff_le]
  · intro creds nowMs e updateErr h
    unfold oauthGetCredentials
    simp [h]

/-- C7 witness: the expiry rule and the stale-token fallback at a concrete
credential record and time. -/
theorem tokenExpiry_and_staleFallback_witness :
    (tokenExpired 1000000 4600000 = true ↔ (1000000 : Int) ≥ 4600000 - 60 * 60 * 1000) ∧
    oauthGetCredentials
        (Except.ok ⟨"stale-access", "refresh", 4600000, "user-1"⟩) 1000000
        (Except.error "refresh endpoint 500") none =
      Except.ok ("stale-access", "user-1") :=
  ⟨tokenExpiry_and_staleFallback.1 1000000 4600000,
    tokenExpiry_and_staleFallback.2 ⟨"stale-access", "refresh", 4600000, "user-1"⟩ 1000000
      "refresh endpoint 500" none (by decide)⟩

/-- C2 counterexample: an event whose payload is not valid JSON is not
skipped — the whole rewrite aborts with an error, and the following text
delta and `[DONE]` are never processed (no frames, no sentinel). -/
theorem sseMalformed_aborts_cex :
    rewriteSSEStream
      [SSEPayload.malformed "not json",
        SSEPayload.json (Json.obj [("type", Json.str "response.output_text.delta"),
          ("delta", Json.str "Hello"), ("sequence_number", Json.num 2)]),
        SSEPayload.doneMark] "gpt-5" =
    Except.error "invalid upstream JSON chunk" := rfl

/-- C2 (amended): an event whose payload is valid JSON (an object) of an
unrecognized event type and which is not an OpenAI chunk is skipped with
no emission and no state change, and processing of subsequent events
continues; an event whose payload is not valid JSON aborts the stream
with a transform error. -/
theorem sseUnknownEvent_skip_malformed_abort (t : SSETransformer) (f : JObj)
    (rest : List SSEPayload) (ds : Bool) (raw : String)
    (h1 : handledEventType (getStr f "type") = false)
    (h2 : (getStr f "object" == "chat.completion.chunk") = false) :
    rewriteLoop t (SSEPayload.json (Json.obj f) :: rest) ds = rewriteLoop t rest ds ∧
    rewriteLoop t (SSEPayload.malformed raw :: rest) ds =
      Except.error "invalid upstream JSON chunk" := by
  constructor
  · simp only [rewriteLoop, flushEventStep_unhandled t f h1 h2]
    simp only [Bool.or_false]
    cases hx : rewriteLoop t rest ds with
    | error e => rfl
    | ok v =>
      cases v with
      | mk fs d => simp
  · simp only [rewriteLoop, flushEventStep_malformed]

/-- C2 witness: at the start state, a `response.unknown` event is a no-op
and a malformed payload aborts, on a concrete one-event remainder. -/
theorem sseUnknownEvent_skip_malformed_abort_witness :
    rewriteLoop (NewSSETransformer "gpt-5")
        (SSEPayload.json (Json.obj [("type", Json.str "response.unknown")]) ::
          [SSEPayload.doneMark]) false =
      rewriteLoop (NewSSETransformer "gpt-5") [SSEPayload.doneMark] false ∧
    rewriteLoop (NewSSETransformer "gpt-5")
        (SSEPayload.malformed "client-junk" :: [SSEPayload.doneMark]) false =
      Except.error "invalid upstream JSON chunk" :=
  sseUnknownEvent_skip_malformed_abort (NewSSETransformer "gpt-5")
    [("type", Json.str "response.unknown")] [SSEPayload.doneMark] false "client-junk"
    (by decide) (by decide)

/-- C5 counterexample: a stream whose events are two `[DONE]` sentinels
completes successfully but writes the `data: [DONE]` frame twice, not
exactly once. -/
theorem sseDone_not_unique_cex :
    rewriteSSEStream [SSEPayload.doneMark, SSEPayload.doneMark] "gpt-5" =
      Except.ok [SSEFrame.doneFrame, SSEFrame.doneFrame] ∧
    [SSEFrame.doneFrame, SSEFrame.doneFrame].countP SSEFrame.isDone ≠ 1 := by
  refine ⟨rfl, by decide⟩

/-- C5 (amended): for every upstream stream in which `[DONE]`, if present
at all, occurs only as the final event, a successfully completed rewrite
writes exactly one `[DONE]` frame and it is the last frame written; a
stream with events after a `[DONE]` (or a second `[DONE]`) escapes this
guarantee because the loop keeps processing events after echoing a
sentinel. -/
theorem sseDone_unique_last (events : List SSEPayload) (model : String) (fs : List SSEFrame)
    (h1 : events.dropLast.all (fun p => !p.isDoneMark) = true)
    (h2 : rewriteSSEStream events model = Except.ok fs) :
    fs.countP SSEFrame.isDone = 1 ∧ fs.getLast? = some SSEFrame.doneFrame := by
  unfold rewriteSSEStream at h2
  rcases hl : rewriteLoop (NewSSETransformer model) events false with _ | ⟨fs0, d⟩
  · rw [hl] at h2; dsimp only at h2; cases h2
  · rw [hl] at h2
    dsimp only at h2
    rcases h2 with ⟨⟩
    exact rewriteLoopFinal_done_unique_last events (NewSSETransformer model) fs0 d h1 hl

/-- C5 witness: a stream consisting of a single `[DONE]` event rewrites to
exactly one sentinel frame, which is last. -/
theorem sseDone_unique_last_witness :
    [SSEFrame.doneFrame].countP SSEFrame.isDone = 1 ∧
    [SSEFrame.doneFrame].getLast? = some SSEFrame.doneFrame :=
  sseDone_unique_last [SSEPayload.doneMark] "gpt-5" [SSEFrame.doneFrame] (by rfl) (by rfl)

end CodexProxy
